import Mathlib

set_option maxRecDepth 100000

/-!
A shallow embedding in Lean 4 of the OpenRTB bid-request analyser found in
src/lib/analyzer.ts, together with theorems about its behaviour.

The analyser is a TypeScript rule engine running over dynamically typed JSON
data.  We model the JavaScript value universe as the inductive type JVal
(with explicit undefined and null values), JavaScript member access,
truthiness, strict equality, numeric coercion and the relevant string methods
as total Lean functions, and a JavaScript exception (a TypeError escaping the
engine) as the error case of an Except computation.  JSON numbers are modelled
as rationals.  The host platform primitive JSON.parse is not part of the
repository source; engine functions therefore take an arbitrary parse
function of type StrParse as a parameter, and theorems quantify over it.
-/

/- ------------------------------------------------------------------ -/
/-  The JavaScript/JSON value universe                                 -/
/- ------------------------------------------------------------------ -/

mutual

/-- A JavaScript runtime value as the analyser can observe it: the values
occurring in parsed JSON plus the distinguished undefined value produced by
member access on absent fields. -/
inductive JVal where
  | undefined : JVal
  | null : JVal
  | bool (b : Bool) : JVal
  | num (q : Rat) : JVal
  | str (s : String) : JVal
  | arr (items : JList) : JVal
  | obj (fields : JFields) : JVal

/-- A JavaScript array payload (a bespoke list so that all recursive
functions below are plain structural recursions that reduce in the kernel). -/
inductive JList where
  | nil : JList
  | cons (head : JVal) (tail : JList) : JList

/-- Ordered object fields (insertion order, as JSON.parse preserves it). -/
inductive JFields where
  | nil : JFields
  | cons (key : String) (value : JVal) (tail : JFields) : JFields

end

/-- Build a JList from a Lean list (for writing concrete payloads). -/
def JList.ofList : List JVal → JList
  | [] => .nil
  | v :: t => .cons v (JList.ofList t)

/-- Build object fields from a Lean association list. -/
def JFields.ofList : List (String × JVal) → JFields
  | [] => .nil
  | (k, v) :: t => .cons k v (JFields.ofList t)

/-- Convenience constructor for array literals. -/
def JVal.arrOf (l : List JVal) : JVal := .arr (JList.ofList l)

/-- Convenience constructor for object literals. -/
def JVal.objOf (l : List (String × JVal)) : JVal := .obj (JFields.ofList l)

/-- First binding of a key among the fields (parsed JSON has unique keys). -/
def JFields.lookupF : JFields → String → Option JVal
  | .nil, _ => none
  | .cons k v t, key => if k = key then some v else JFields.lookupF t key

/-- Length of a JList. -/
def JList.len : JList → Nat
  | .nil => 0
  | .cons _ t => 1 + JList.len t

/-- JavaScript truthiness.  (NaN cannot occur inside a JVal: JSON numbers are
finite, and computed NaNs are modelled at the point of computation.) -/
def JVal.truthy : JVal → Bool
  | .undefined => false
  | .null => false
  | .bool b => b
  | .num q => !(q == 0)
  | .str s => !(s == "")
  | .arr _ => true
  | .obj _ => true

/-- Is this value null or undefined (the values on which member access
throws and on which optional chaining short-circuits)? -/
def JVal.isNullish : JVal → Bool
  | .undefined => true
  | .null => true
  | _ => false

/-- Member access result ignoring the throwing cases: a named property of an
object, undefined for absent fields and for every non-object receiver
(primitives are boxed; arrays have no named data properties the analyser
reads).  Applied to null or undefined this returns undefined, which makes it
exactly the semantics of the optional chain a?.k. -/
def JVal.getD (v : JVal) (k : String) : JVal :=
  match v with
  | .obj fs => (fs.lookupF k).getD .undefined
  | _ => .undefined

/-- Plain member access a.k: throws a TypeError on null and undefined,
otherwise as JVal.getD. -/
def JVal.gE (v : JVal) (k : String) : Except Unit JVal :=
  match v with
  | .undefined => .error ()
  | .null => .error ()
  | _ => .ok (v.getD k)

/-- Array.isArray. -/
def JVal.isArr : JVal → Bool
  | .arr _ => true
  | _ => false

/-- typeof v === number. -/
def JVal.isNum : JVal → Bool
  | .num _ => true
  | _ => false

/-- The items of an array value (nil for non-arrays; callers check isArr). -/
def JVal.items : JVal → JList
  | .arr xs => xs
  | _ => .nil

/-- Array length (0 for non-arrays; callers check isArr first). -/
def JVal.alen (v : JVal) : Nat := (v.items).len

/-- JavaScript strict equality (===) restricted to the cases the rules
exercise: structural on primitives; false on arrays/objects, which under ===
compare by reference and in the rules are only ever compared against
primitive literals. -/
def jsStrictEq : JVal → JVal → Bool
  | .undefined, .undefined => true
  | .null, .null => true
  | .bool a, .bool b => a == b
  | .num a, .num b => a == b
  | .str a, .str b => a == b
  | _, _ => false

/-- The whitespace characters trimmed by String.prototype.trim (the common
ASCII subset; exotic Unicode space code points are not modelled). -/
def jsWSChar (c : Char) : Bool :=
  c == ' ' || c == '\t' || c == '\n' || c == '\r' || c == '\x0b' || c == '\x0c'

/-- JavaScript-style trim on a character list. -/
def jsTrimChars (l : List Char) : List Char :=
  ((l.dropWhile jsWSChar).reverse.dropWhile jsWSChar).reverse

/-- isNonEmptyString from the source: a string whose trim is non-empty. -/
def isNonEmptyString (v : JVal) : Bool :=
  match v with
  | .str s => !(jsTrimChars s.data).isEmpty
  | _ => false

/-- Number.isInteger. -/
def jsIsInteger (v : JVal) : Bool :=
  match v with
  | .num q => q.den == 1
  | _ => false

/-- Parse a decimal string as JavaScript Number(string) does for the plain
forms the analyser can meet: optional sign, digits, optional fractional
part; the empty (all-whitespace) string is 0.  Hex/exponent forms are not
modelled and map to NaN (none). -/
def jsStringToNum (s : String) : Option Rat :=
  let l := jsTrimChars s.data
  if l.isEmpty then some 0
  else
    let (sign, l) : Rat × List Char :=
      match l with
      | '-' :: t => (-1, t)
      | '+' :: t => (1, t)
      | _ => (1, l)
    let intPart := l.takeWhile Char.isDigit
    let rest := l.dropWhile Char.isDigit
    let digitsVal (ds : List Char) : Nat :=
      ds.foldl (fun a c => a * 10 + (c.toNat - 48)) 0
    match rest with
    | [] =>
      if intPart.isEmpty then none
      else some (sign * (digitsVal intPart : Rat))
    | '.' :: frac =>
      if frac.all Char.isDigit && !(intPart.isEmpty && frac.isEmpty) then
        some (sign * ((digitsVal intPart : Rat) +
          (digitsVal frac : Rat) / ((10 : Rat) ^ frac.length)))
      else none
    | _ => none

/-- ToNumber coercion (for relational and arithmetic operators).  none plays
the role of NaN.  Objects and arrays coerce through ToPrimitive/toString in
JavaScript; the rules never compare them numerically, so they are modelled
as NaN. -/
def JVal.toNum : JVal → Option Rat
  | .num q => some q
  | .bool b => some (if b then 1 else 0)
  | .null => some 0
  | .undefined => none
  | .str s => jsStringToNum s
  | _ => none

/-- JavaScript a < b: string/string lexicographic, otherwise numeric with
NaN making the comparison false. -/
def jsLt (a b : JVal) : Bool :=
  match a, b with
  | .str x, .str y => decide (x < y)
  | _, _ =>
    match a.toNum, b.toNum with
    | some x, some y => decide (x < y)
    | _, _ => false

/-- JavaScript a > b. -/
def jsGt (a b : JVal) : Bool := jsLt b a

/-- JavaScript a >= b (the negation of a < b, except that NaN operands make
it false as well). -/
def jsGe (a b : JVal) : Bool :=
  match a, b with
  | .str x, .str y => decide (¬ x < y)
  | _, _ =>
    match a.toNum, b.toNum with
    | some x, some y => decide (y ≤ x)
    | _, _ => false

/-- JavaScript subtraction a - b; none is NaN. -/
def jsSub (a b : JVal) : Option Rat :=
  match a.toNum, b.toNum with
  | some x, some y => some (x - y)
  | _, _ => none

/-- Array.prototype.every with a possibly-throwing body, in order, stopping
at the first false or the first exception.  Calling it on a non-array
receiver is a TypeError. -/
def jsEveryL : JList → (JVal → Except Unit Bool) → Except Unit Bool
  | .nil, _ => .ok true
  | .cons v t, f =>
    match f v with
    | .error e => .error e
    | .ok b => if b then jsEveryL t f else .ok false

/-- Receiver-checking wrapper for .every. -/
def jsEvery (v : JVal) (f : JVal → Except Unit Bool) : Except Unit Bool :=
  match v with
  | .arr xs => jsEveryL xs f
  | _ => .error ()

/-- Array.prototype.some, truthiness of the callback results. -/
def jsSomeL : JList → (JVal → Except Unit Bool) → Except Unit Bool
  | .nil, _ => .ok false
  | .cons v t, f =>
    match f v with
    | .error e => .error e
    | .ok b => if b then .ok true else jsSomeL t f

/-- Receiver-checking wrapper for .some. -/
def jsSome (v : JVal) (f : JVal → Except Unit Bool) : Except Unit Bool :=
  match v with
  | .arr xs => jsSomeL xs f
  | _ => .error ()

/-- Does a JList contain a value under strict equality (SameValueZero and
=== agree on the primitive values the rules store in sets/arrays)? -/
def JList.containsJ : JList → JVal → Bool
  | .nil, _ => false
  | .cons v t, x => jsStrictEq v x || JList.containsJ t x

/- ------------------------------------------------------------------ -/
/-  String helpers: the pre-compiled regular expressions and string    -/
/-  methods used by the rules, as explicit scanners                    -/
/- ------------------------------------------------------------------ -/

/-- Substring test on character lists. -/
def charsContain (hay pat : List Char) : Bool :=
  match hay with
  | [] => pat.isEmpty
  | _ :: t => pat.isPrefixOf hay || charsContain t pat

/-- String.prototype.includes for plain string receivers. -/
def strContains (s sub : String) : Bool := charsContain s.data sub.data

/-- String.prototype.endsWith. -/
def strEndsWith (s suffix : String) : Bool := suffix.data.isSuffixOf s.data

/-- String.prototype.startsWith. -/
def strStartsWith (s pre : String) : Bool := pre.data.isPrefixOf s.data

/-- Split a character list on a separator character (like splitting a string
on . or :, keeping empty segments). -/
def splitOnChar (sep : Char) : List Char → List (List Char)
  | [] => [[]]
  | c :: t =>
    let rest := splitOnChar sep t
    if c == sep then [] :: rest
    else
      match rest with
      | [] => [[c]]
      | seg :: more => (c :: seg) :: more

/-- Numeric value of a digit list. -/
def digitsToNat (ds : List Char) : Nat :=
  ds.foldl (fun a c => a * 10 + (c.toNat - 48)) 0

/-- One dotted segment of IPV4_REGEX: (25[0-5]|2[0-4][0-9]|[01]?[0-9][0-9]?),
i.e. one to three digits denoting a value at most 255. -/
def isIPv4Octet (ds : List Char) : Bool :=
  !ds.isEmpty && ds.length ≤ 3 && ds.all Char.isDigit && digitsToNat ds ≤ 255

/-- IPV4_REGEX.test: four dot-separated octets spanning the whole string. -/
def ipv4Test (s : String) : Bool :=
  match splitOnChar '.' s.data with
  | [a, b, c, d] => isIPv4Octet a && isIPv4Octet b && isIPv4Octet c && isIPv4Octet d
  | _ => false

/-- One colon-separated group of IPV6_REGEX: one to four hex digits. -/
def isIPv6Group (ds : List Char) : Bool :=
  !ds.isEmpty && ds.length ≤ 4 && ds.all (fun c => c.isDigit ||
    ('a' ≤ c && c ≤ 'f') || ('A' ≤ c && c ≤ 'F'))

/-- IPV6_REGEX.test: eight full hex groups, or the literals ::1 and ::. -/
def ipv6Test (s : String) : Bool :=
  s == "::1" || s == "::" ||
    (match splitOnChar ':' s.data with
     | gs => gs.length == 8 && gs.all isIPv6Group)

/-- Word characters of MACRO_REGEX. -/
def isMacroWordChar (c : Char) : Bool := c.isAlpha || c.isDigit || c == '_'

/-- After the opening bracket and the mandatory first word character: scan
zero or more word characters and demand a closing bracket. -/
def macroCloseScan : List Char → Bool
  | [] => false
  | c :: t =>
    if c == '\x7d' || c == ']' then true
    else if isMacroWordChar c then macroCloseScan t
    else false

/-- MACRO_REGEX.test: does the string contain an opening brace/bracket
followed by [a-zA-Z_][a-zA-Z0-9_]* and a closing brace/bracket? -/
def macroScan : List Char → Bool
  | [] => false
  | c :: t =>
    ((c == '\x7b' || c == '[') &&
      (match t with
       | [] => false
       | d :: u => (d.isAlpha || d == '_') && macroCloseScan u)) ||
    macroScan t

/-- Decimal rendering of a rational, as String(number) renders it for the
integral values the analyser meets (non-integral formatting is approximated
and never exercised by the theorems below). -/
def ratToString (q : Rat) : String :=
  if q.den == 1 then toString q.num
  else toString q.num ++ "." ++ toString q.den

mutual

/-- String(v): the ToString coercion applied by RegExp.prototype.test and
String.prototype.includes to their argument. -/
def jsToString : JVal → String
  | .undefined => "undefined"
  | .null => "null"
  | .bool b => if b then "true" else "false"
  | .num q => ratToString q
  | .str s => s
  | .arr xs => jsToStringItems xs
  | .obj _ => "[object Object]"

/-- Array.prototype.toString: elements joined with commas, null/undefined
rendering as the empty string. -/
def jsToStringItems : JList → String
  | .nil => ""
  | .cons v .nil =>
    (match v with
     | .undefined => ""
     | .null => ""
     | w => jsToString w)
  | .cons v t =>
    (match v with
     | .undefined => ""
     | .null => ""
     | w => jsToString w) ++ "," ++ jsToStringItems t

end

/-- Escape one character for a JSON string literal (the characters the
concrete payloads below can contain; further control characters are not
modelled). -/
def jsonEscapeChar (c : Char) : String :=
  if c == '"' then "\\\""
  else if c == '\\' then "\\\\"
  else if c == '\n' then "\\n"
  else if c == '\t' then "\\t"
  else if c == '\r' then "\\r"
  else String.singleton c

/-- Escape a whole string body. -/
def jsonEscape (l : List Char) : String :=
  match l with
  | [] => ""
  | c :: t => jsonEscapeChar c ++ jsonEscape t

mutual

/-- JSON.stringify on the values the analyser passes to it (parsed JSON, so
no undefined occurs inside; an undefined element would render as null). -/
def jsonStringify : JVal → String
  | .undefined => "null"
  | .null => "null"
  | .bool b => if b then "true" else "false"
  | .num q => ratToString q
  | .str s => "\"" ++ jsonEscape s.data ++ "\""
  | .arr xs => "[" ++ jsonStringifyItems xs ++ "]"
  | .obj fs => "\x7b" ++ jsonStringifyFields fs ++ "\x7d"

/-- Array elements, comma separated. -/
def jsonStringifyItems : JList → String
  | .nil => ""
  | .cons v .nil => jsonStringify v
  | .cons v t => jsonStringify v ++ "," ++ jsonStringifyItems t

/-- Object fields, comma separated, insertion order. -/
def jsonStringifyFields : JFields → String
  | .nil => ""
  | .cons k v .nil => "\"" ++ jsonEscape k.data ++ "\":" ++ jsonStringify v
  | .cons k v t =>
    "\"" ++ jsonEscape k.data ++ "\":" ++ jsonStringify v ++ "," ++ jsonStringifyFields t

end

/-- isValidIPv4 from the source (RegExp.test coerces its argument). -/
def isValidIPv4 (v : JVal) : Bool := ipv4Test (jsToString v)

/-- isValidIPv6 from the source. -/
def isValidIPv6 (v : JVal) : Bool := ipv6Test (jsToString v)

/-- containsMacros from the source. -/
def containsMacros (v : JVal) : Bool := macroScan (jsToString v).data

/-- isTruncatedIP from the source: ip.endsWith and ip.includes are string
methods, so a non-string receiver raises a TypeError. -/
def isTruncatedIP (v : JVal) : Except Unit Bool :=
  match v with
  | .str s => .ok (strEndsWith s ".0" || strContains s "xxx" || strContains s "***")
  | _ => .error ()

/-- isTruncatedIPv6 from the source; same receiver caveat. -/
def isTruncatedIPv6 (v : JVal) : Except Unit Bool :=
  match v with
  | .str s => .ok (strContains s "::" && s.length < 15)
  | _ => .error ()

/-- The method call .includes(x) on a value: arrays use SameValueZero membership, strings
substring search with the argument coerced to a string; any other receiver
is a TypeError. -/
def jsIncludesMeth (recv arg : JVal) : Except Unit Bool :=
  match recv with
  | .arr xs => .ok (xs.containsJ arg)
  | .str s => .ok (strContains s (jsToString arg))
  | _ => .error ()

/- ------------------------------------------------------------------ -/
/-  Data model: Severity, Issue, summary, result, options, context     -/
/- ------------------------------------------------------------------ -/

/-- Severity levels of issues. -/
inductive Severity where
  | error : Severity
  | warning : Severity
  | info : Severity
deriving DecidableEq, BEq

/-- A reported issue. -/
structure Issue where
  id : String
  severity : Severity
  message : String
  path : Option String := none
  specRef : Option String := none
deriving DecidableEq

/-- The derived summary.  geo keeps the raw JavaScript value placed there by
the source (the declared country code, or the string N/A). -/
structure AnalysisSummary where
  requestType : String
  mediaFormats : List String
  impressions : Nat
  platform : String
  deviceType : String
  geo : JVal

/-- The analyser's sole output. -/
structure AnalysisResult where
  summary : AnalysisSummary
  issues : List Issue
  request : JVal
  error : Option String := none

/-- Options of analyse (both optional in the source). -/
structure AnalyseOptions where
  forceCTV : Option Bool := none
  partnerProfile : Option String := none

/-- The per-analysis context shared by all rules. -/
structure Context where
  root : JVal
  inventory : List String
  isCTV : Bool
  partnerProfile : Option String

/-- A catalogue rule.  applies defaults to the absent case (treated as
always true by the engine); validate may raise a TypeError, modelled as the
error case. -/
structure Rule where
  id : String
  description : String
  severity : Severity
  path : Option String := none
  specRef : Option String := none
  applies : Option (Context → Bool) := none
  validate : Context → Except Unit Bool

/-- The JSON.parse platform primitive, abstracted: on success the parsed
value, on failure the exception message. -/
def StrParse : Type := String → Except String JVal

/- ------------------------------------------------------------------ -/
/-  Static lookup tables                                               -/
/- ------------------------------------------------------------------ -/

/-- DEVICE_TYPE: the OpenRTB 2.5/2.6 devicetype taxonomy used for the
summary label. -/
def DEVICE_TYPE (q : Rat) : Option String :=
  if q == 1 then some "Mobile/Tablet"
  else if q == 2 then some "PC"
  else if q == 3 then some "Connected TV"
  else if q == 4 then some "Phone"
  else if q == 5 then some "Tablet"
  else if q == 6 then some "Connected Device"
  else if q == 7 then some "Set-top Box"
  else none

/-- The same table accessed with a string key (JavaScript object indexing
coerces keys to strings, so the decimal string forms of 1..7 also hit). -/
def DEVICE_TYPE_STR (s : String) : Option String :=
  if s == "1" then some "Mobile/Tablet"
  else if s == "2" then some "PC"
  else if s == "3" then some "Connected TV"
  else if s == "4" then some "Phone"
  else if s == "5" then some "Tablet"
  else if s == "6" then some "Connected Device"
  else if s == "7" then some "Set-top Box"
  else none

/-- The summary lookup DEVICE_TYPE[root?.device?.devicetype] followed by
the || Unknown default. -/
def deviceTypeOf (v : JVal) : String :=
  match v with
  | .num q => (DEVICE_TYPE q).getD "Unknown"
  | .str s => (DEVICE_TYPE_STR s).getD "Unknown"
  | _ => "Unknown"

/-- DATA_CENTER_MAP: datacenter id to (name, continent); continent is null
for Telecity. -/
def DATA_CENTER_MAP (q : Rat) : Option (String × Option String) :=
  if q == 2 then some ("Telecity", none)
  else if q == 3 then some ("Equinix", some "Europe")
  else if q == 4 then some ("Interxion5", some "Europe")
  else if q == 5 then some ("Terremark", some "Americas")
  else if q == 10 then some ("USW1", some "Americas")
  else if q == 11 then some ("EUW1", some "Europe")
  else if q == 12 then some ("USE1", some "Americas")
  else if q == 13 then some ("APAC1", some "Asia")
  else if q == 14 then some ("EUW2", some "Europe")
  else if q == 16 then some ("USE2", some "Americas")
  else none

/-- COUNTRY_CONTINENT_MAP (the countries present in the source; the source
comment says further countries are omitted there for brevity). -/
def COUNTRY_CONTINENT_MAP (s : String) : Option String :=
  if s == "USA" then some "Americas"
  else if s == "DEU" then some "Europe"
  else if s == "FRA" then some "Europe"
  else if s == "GBR" then some "Europe"
  else if s == "CHN" then some "Asia"
  else if s == "JPN" then some "Asia"
  else none

/- ------------------------------------------------------------------ -/
/-  STORE_URL_MAP pattern matchers                                     -/
/- ------------------------------------------------------------------ -/

/-- Longest all-digit suffix split: returns (before, digits) with digits
maximal and non-empty, the capture a greedy trailing star-digit group
produces. -/
def digitSuffixSplit (l : List Char) : Option (List Char × List Char) :=
  let r := l.reverse
  let ds := r.takeWhile Char.isDigit
  if ds.isEmpty then none else some ((r.dropWhile Char.isDigit).reverse, ds.reverse)

/-- Match a trailing /id(digits+)$ group: the string must end in /id
followed by one or more digits; returns the captured digits. -/
def trailingIdDigits (l : List Char) : Option (List Char × String) :=
  match digitSuffixSplit l with
  | none => none
  | some (before, ds) =>
    if ['/', 'i', 'd'].isSuffixOf before then
      some ((before.take (before.length - 3)), String.mk ds)
    else none

/-- Apple pattern 1: https apps.apple.com slash .* /app/ .* /id(digits)$ -/
def appleMatch1 (s : String) : Option String :=
  if strStartsWith s "https://apps.apple.com/" then
    let rest := (s.data).drop "https://apps.apple.com/".length
    match trailingIdDigits rest with
    | some (before, ds) =>
      if charsContain before "/app/".data then some ds else none
    | none => none
  else none

/-- Match prefix then one-or-more digits to the end of the string. -/
def prefixThenDigits (s pre : String) : Option String :=
  if strStartsWith s pre then
    let rest := (s.data).drop pre.length
    if !rest.isEmpty && rest.all Char.isDigit then some (String.mk rest) else none
  else none

/-- Apple pattern 2: https apps.apple.com/app/id(digits)$ -/
def appleMatch2 (s : String) : Option String :=
  prefixThenDigits s "https://apps.apple.com/app/id"

/-- Apple pattern 3: https apps.apple.com/us/app/id(digits)$ -/
def appleMatch3 (s : String) : Option String :=
  prefixThenDigits s "https://apps.apple.com/us/app/id"

/-- Android bundle character class [a-zA-Z0-9._]. -/
def isAndroidBundleChar (c : Char) : Bool :=
  c.isAlpha || c.isDigit || c == '.' || c == '_'

/-- Google Play pattern: details query parameter id=( [a-zA-Z0-9._]+ )$ -/
def androidMatch (s : String) : Option String :=
  let pre := "https://play.google.com/store/apps/details?id="
  if strStartsWith s pre then
    let rest := (s.data).drop pre.length
    if !rest.isEmpty && rest.all isAndroidBundleChar then some (String.mk rest) else none
  else none

/-- Roku pattern 1: channelstore details/([a-zA-Z0-9]+)/ then anything. -/
def rokuMatch1 (s : String) : Option String :=
  let pre := "https://channelstore.roku.com/details/"
  if strStartsWith s pre then
    let rest := (s.data).drop pre.length
    let cap := rest.takeWhile (fun c => c.isAlpha || c.isDigit)
    let after := rest.dropWhile (fun c => c.isAlpha || c.isDigit)
    if !cap.isEmpty && (match after with | '/' :: _ => true | _ => false) then
      some (String.mk cap)
    else none
  else none

/-- Roku pattern 2: channelstore details/(digits+) optionally slash, end. -/
def rokuMatch2 (s : String) : Option String :=
  let pre := "https://channelstore.roku.com/details/"
  if strStartsWith s pre then
    let rest := (s.data).drop pre.length
    let cap := rest.takeWhile Char.isDigit
    let after := rest.dropWhile Char.isDigit
    if !cap.isEmpty && (after.isEmpty || after == ['/']) then some (String.mk cap)
    else none
  else none

/-- Bundle format check per platform: ios and roku demand all digits,
android the [a-zA-Z0-9._]+ class (test coerces a non-string bundle). -/
def bundlePatternTest (platform : String) (bundle : JVal) : Bool :=
  let b := (jsToString bundle).data
  if platform == "android" then !b.isEmpty && b.all isAndroidBundleChar
  else !b.isEmpty && b.all Char.isDigit

/-- Try the STORE_URL_MAP patterns in their source order (ios patterns 1-3,
android, roku patterns 1-2); return the platform key and captured id of the
first match. -/
def storeUrlMatch (su : String) : Option (String × String) :=
  match appleMatch1 su with
  | some c => some ("ios", c)
  | none =>
  match appleMatch2 su with
  | some c => some ("ios", c)
  | none =>
  match appleMatch3 su with
  | some c => some ("ios", c)
  | none =>
  match androidMatch su with
  | some c => some ("android", c)
  | none =>
  match rokuMatch1 su with
  | some c => some ("roku", c)
  | none =>
  match rokuMatch2 su with
  | some c => some ("roku", c)
  | none => none

/-- validateStoreUrlAndBundle: on the first matching pattern, a mismatched
or mis-formatted bundle is the EQ-App-009 error; no pattern matching at all
is the EQ-App-010 error.  storeUrl.match is a string method, so a non-string
store URL raises a TypeError. -/
def validateStoreUrlAndBundle (storeUrl bundle : JVal) : Except Unit (List Issue) :=
  match storeUrl with
  | .str su =>
    .ok (match storeUrlMatch su with
      | some (platform, extractedId) =>
        if !(bundlePatternTest platform bundle) || !(jsStrictEq (.str extractedId) bundle) then
          [{ id := "EQ-App-009", severity := .error,
             message := "Store URL and bundle mismatch for " ++ platform,
             path := some "BidRequest.app",
             specRef := some (platform ++ " store pattern") }]
        else []
      | none =>
        [{ id := "EQ-App-010", severity := .error,
           message := "Store URL does not match any known platform pattern",
           path := some "BidRequest.app.storeurl" }])
  | _ => .error ()

/-- validateCountryDatacenterMatch: silent unless the datacenter id is
truthy, the country is a known map key, the datacenter is known with a
non-null continent, and the two continents disagree; then the single
EQ-Device-024 warning. -/
def validateCountryDatacenterMatch (country datacenterId : JVal) : List Issue :=
  if !datacenterId.truthy then []
  else
    match country with
    | .str c =>
      match COUNTRY_CONTINENT_MAP c with
      | none => []
      | some countryContinent =>
        match datacenterId with
        | .num q =>
          match DATA_CENTER_MAP q with
          | some (_, some dcContinent) =>
            if dcContinent != countryContinent then
              [{ id := "EQ-Device-024", severity := .warning,
                 message := "Country continent mismatch with datacenter continent",
                 path := some "BidRequest.device.geo.country" }]
            else []
          | _ => []
        | _ => []
    | _ => []

/- ------------------------------------------------------------------ -/
/-  Parser/Locator and Context Builder                                 -/
/- ------------------------------------------------------------------ -/

/-- Does this object satisfy the bid-request shape: a string id and an
array imp? -/
def bidShape (fs : JFields) : Bool :=
  (match fs.lookupF "id" with | some (.str _) => true | _ => false) &&
  (match fs.lookupF "imp" with | some (.arr _) => true | _ => false)

mutual

/-- findBidRequest from the source: depth-first search for the first
descendant object with a string id and an array imp; null when none is
found.  Object.keys enumerates object fields and array indices in order. -/
def findBidRequest : JVal → JVal
  | .obj fs => if bidShape fs then .obj fs else findBidRequestFields fs
  | .arr xs => findBidRequestItems xs
  | _ => .null

/-- Search the field values in order. -/
def findBidRequestFields : JFields → JVal
  | .nil => .null
  | .cons _ v t =>
    match findBidRequest v with
    | .null => findBidRequestFields t
    | r => r

/-- Search the array elements in order. -/
def findBidRequestItems : JList → JVal
  | .nil => .null
  | .cons v t =>
    match findBidRequest v with
    | .null => findBidRequestItems t
    | r => r

end

/-- Add an inventory tag if not yet present (JavaScript Set insertion
order). -/
def invAdd (inv : List String) (x : String) : List String :=
  if inv.contains x then inv else inv ++ [x]

/-- One impression of the single inventory scan. -/
def scanImp (inv : List String) (imp : JVal) : List String :=
  let inv := if (imp.getD "banner").truthy then invAdd inv "banner" else inv
  let inv := if (imp.getD "video").truthy then invAdd inv "video" else inv
  let inv := if (imp.getD "audio").truthy then invAdd inv "audio" else inv
  let inv := if (imp.getD "native").truthy then invAdd inv "native" else inv
  if (imp.getD "qty").truthy then invAdd inv "dooh" else inv

/-- The whole scan, in array order. -/
def scanImps : JList → List String → List String
  | .nil, inv => inv
  | .cons imp t, inv => scanImps t (scanImp inv imp)

/-- The Context Builder of analyse: start from the forced options, and when
a root with an imp array exists, scan the impressions once and auto-detect
CTV from device.devicetype being 3 or 5. -/
def buildContext (root : JVal) (options : AnalyseOptions) : Context :=
  let isCTV0 := options.forceCTV.getD false
  if root.truthy && (root.getD "imp").isArr then
    let inv := scanImps (root.getD "imp").items []
    let dt := (root.getD "device").getD "devicetype"
    { root := root, inventory := inv,
      isCTV := isCTV0 || jsStrictEq dt (.num 3) || jsStrictEq dt (.num 5),
      partnerProfile := options.partnerProfile }
  else
    { root := root, inventory := [], isCTV := isCTV0,
      partnerProfile := options.partnerProfile }

/- ------------------------------------------------------------------ -/
/-  Rule catalogue                                                     -/
/- ------------------------------------------------------------------ -/

/-- All elements of a JList satisfy a pure predicate. -/
def JList.allJ : JList → (JVal → Bool) → Bool
  | .nil, _ => true
  | .cons v t, f => f v && JList.allJ t f

/-- Core-Imp-001's stateful every-callback: ids must be non-empty strings
never seen before in the scan. -/
def impIdsUnique : JList → List String → Bool
  | .nil, _ => true
  | .cons imp t, seen =>
    match imp.getD "id" with
    | .str s =>
      if !(jsTrimChars s.data).isEmpty && !seen.contains s then impIdsUnique t (s :: seen)
      else false
    | _ => false

/-- EQ-Imp-010's currency set: distinct truthy bidfloorcur values. -/
def collectCurrencies : JList → List JVal → List JVal
  | .nil, acc => acc
  | .cons imp t, acc =>
    let cur := imp.getD "bidfloorcur"
    if cur.truthy && !(acc.any (fun x => jsStrictEq x cur)) then
      collectCurrencies t (acc ++ [cur])
    else collectCurrencies t acc

/-- The dooh sub-objects of the impressions, in order. -/
def collectDooh : JList → List JVal
  | .nil => []
  | .cons imp t =>
    if (imp.getD "dooh").truthy then imp.getD "dooh" :: collectDooh t
    else collectDooh t

/-- try/catch around a boolean computation. -/
def tryCatchB (x : Except Unit Bool) (dflt : Bool) : Bool :=
  match x with
  | .ok b => b
  | .error _ => dflt

def coreRules : List Rule := [
  { id := "missing-request",
    description := "No valid OpenRTB bid request found.",
    severity := .error,
    validate := fun c => .ok c.root.truthy },
  { id := "Core-BR-001",
    description := "BidRequest.id must be present and be a non-empty string",
    severity := .error, path := some "BidRequest.id",
    specRef := some "OpenRTB 2.6 §3.2.1",
    applies := some fun c => c.root.truthy,
    validate := fun c => do
      let idv ← c.root.gE "id"
      pure (isNonEmptyString idv) },
  { id := "Core-BR-003",
    description := "BidRequest.imp must be a non-empty array",
    severity := .error, path := some "BidRequest.imp",
    specRef := some "OpenRTB 2.6 §3.2.1",
    applies := some fun c => c.root.truthy,
    validate := fun c => do
      let imps ← c.root.gE "imp"
      pure (imps.isArr && decide (imps.alen > 0)) },
  { id := "Core-BR-004",
    description := "BidRequest.at (auction type) must be present and be an integer",
    severity := .error, path := some "BidRequest.at",
    specRef := some "OpenRTB 2.6 §3.2.1",
    applies := some fun c => c.root.truthy,
    validate := fun c => do
      let atv ← c.root.gE "at"
      pure (jsIsInteger atv) },
  { id := "Core-BR-005",
    description := "Exactly one of BidRequest.app or BidRequest.site must be present",
    severity := .error,
    specRef := some "OpenRTB 2.6 §3.2.1",
    applies := some fun c => c.root.truthy,
    validate := fun c => do
      let a ← c.root.gE "app"
      let s ← c.root.gE "site"
      pure ((a.truthy && !s.truthy) || (!a.truthy && s.truthy)) },
  { id := "Core-BR-006",
    description := "BidRequest must not contain both site and app objects",
    severity := .error, path := some "BidRequest",
    specRef := some "OpenRTB 2.6 §3.2.1",
    applies := some fun c => c.root.truthy,
    validate := fun c => do
      let a ← c.root.gE "app"
      let s ← c.root.gE "site"
      pure (!(a.truthy && s.truthy)) },
  { id := "Core-BR-007",
    description := "test should be 0 (production) or 1 (test)",
    severity := .warning, path := some "BidRequest.test",
    specRef := some "OpenRTB 2.6 §3.2.1",
    applies := some fun c =>
      c.root.truthy && !(jsStrictEq (c.root.getD "test") .undefined),
    validate := fun c => do
      let t ← c.root.gE "test"
      pure (jsStrictEq t (.num 0) || jsStrictEq t (.num 1)) },
  { id := "Core-BR-009",
    description := "tmax (timeout) should be present and greater than 0",
    severity := .warning, path := some "BidRequest.tmax",
    specRef := some "OpenRTB 2.6 §3.2.1",
    applies := some fun c => c.root.truthy,
    validate := fun c => do
      let t ← c.root.gE "tmax"
      pure (t.truthy && jsGt t (.num 0)) },
  { id := "EQ-BR-002",
    description := "BidRequest must contain a device object",
    severity := .error, path := some "BidRequest.device",
    applies := some fun c => c.root.truthy,
    validate := fun c => do
      let d ← c.root.gE "device"
      pure d.truthy },
  { id := "EQ-BR-004",
    description := "BidRequest must contain a source object",
    severity := .error, path := some "BidRequest.source",
    applies := some fun c => c.root.truthy,
    validate := fun c => do
      let s ← c.root.gE "source"
      pure s.truthy },
  { id := "EQ-BR-005",
    description := "BidRequest must contain a user object",
    severity := .error, path := some "BidRequest.user",
    applies := some fun c => c.root.truthy,
    validate := fun c => do
      let u ← c.root.gE "user"
      pure u.truthy },
  { id := "EQ-BR-006",
    description := "partnerIsCalled must be true when present",
    severity := .error, path := some "BidRequest.ext.partnerIsCalled",
    applies := some fun c =>
      (c.root.getD "ext").truthy &&
        !(jsStrictEq ((c.root.getD "ext").getD "partnerIsCalled") .undefined),
    validate := fun c => do
      let e ← c.root.gE "ext"
      pure (jsStrictEq (e.getD "partnerIsCalled") (.bool true)) }
]

def impressionRules : List Rule := [
  { id := "Core-Imp-001",
    description := "Each impression must contain a unique id (string)",
    severity := .error, path := some "BidRequest.imp[].id",
    specRef := some "OpenRTB 2.6 §3.2.4",
    applies := some fun c => c.root.truthy,
    validate := fun c => do
      let imps ← c.root.gE "imp"
      if !imps.isArr then pure true
      else pure (impIdsUnique imps.items []) },
  { id := "Core-Imp-002",
    description := "Each impression must contain either video, native, or banner object",
    severity := .error, path := some "BidRequest.imp[]",
    specRef := some "OpenRTB 2.6 §3.2.4",
    applies := some fun c => c.root.truthy,
    validate := fun c => do
      let imps ← c.root.gE "imp"
      if !imps.isArr then pure true
      else jsEvery imps fun imp =>
        .ok ((imp.getD "video").truthy || (imp.getD "native").truthy ||
             (imp.getD "banner").truthy || (imp.getD "audio").truthy) },
  { id := "Core-Imp-003",
    description := "Each impression must contain only one of video, native, or banner",
    severity := .error, path := some "BidRequest.imp[]",
    specRef := some "OpenRTB 2.6 §3.2.4",
    applies := some fun c => c.root.truthy,
    validate := fun c => do
      let imps ← c.root.gE "imp"
      if !imps.isArr then pure true
      else jsEvery imps fun imp =>
        .ok (decide ((([(imp.getD "video").truthy, (imp.getD "native").truthy,
              (imp.getD "banner").truthy, (imp.getD "audio").truthy].filter
                (fun b => b)).length) ≤ 1)) },
  { id := "Core-Imp-004",
    description := "bidfloor must be a non-negative number",
    severity := .warning, path := some "BidRequest.imp[].bidfloor",
    applies := some fun c => c.root.truthy,
    validate := fun c => do
      let imps ← c.root.gE "imp"
      if !imps.isArr then pure true
      else jsEvery imps fun imp =>
        .ok (jsStrictEq (imp.getD "bidfloor") .undefined ||
             ((imp.getD "bidfloor").isNum && jsGe (imp.getD "bidfloor") (.num 0))) },
  { id := "Core-Imp-005",
    description := "bidfloorcur must be present when bidfloor is specified",
    severity := .error, path := some "BidRequest.imp[].bidfloorcur",
    applies := some fun c => c.root.truthy,
    validate := fun c => do
      let imps ← c.root.gE "imp"
      if !imps.isArr then pure true
      else jsEvery imps fun imp =>
        .ok (jsStrictEq (imp.getD "bidfloor") .undefined ||
             isNonEmptyString (imp.getD "bidfloorcur")) },
  { id := "Core-Imp-006",
    description := "secure must be 0 or 1",
    severity := .error, path := some "BidRequest.imp[].secure",
    applies := some fun c => c.root.truthy,
    validate := fun c => do
      let imps ← c.root.gE "imp"
      if !imps.isArr then pure true
      else jsEvery imps fun imp =>
        .ok (jsStrictEq (imp.getD "secure") .undefined ||
             jsStrictEq (imp.getD "secure") (.num 0) ||
             jsStrictEq (imp.getD "secure") (.num 1)) },
  { id := "EQ-Imp-036",
    description := "imp.secure must be either 0 or 1",
    severity := .error, path := some "BidRequest.imp[].secure",
    applies := some fun c => c.root.truthy,
    validate := fun c => do
      let imps ← c.root.gE "imp"
      if !imps.isArr then pure true
      else jsEvery imps fun imp =>
        .ok (jsStrictEq (imp.getD "secure") .undefined ||
             jsStrictEq (imp.getD "secure") (.num 0) ||
             jsStrictEq (imp.getD "secure") (.num 1)) },
  { id := "EQ-Imp-048",
    description := "imp.ext.wopv is recommended for video impressions",
    severity := .warning, path := some "BidRequest.imp[].ext.wopv",
    applies := some fun c => c.root.truthy && c.inventory.contains "video",
    validate := fun c => do
      let imps ← c.root.gE "imp"
      if !imps.isArr then pure true
      else jsEvery imps fun imp =>
        .ok (!(imp.getD "video").truthy || ((imp.getD "ext").getD "wopv").truthy) },
  { id := "EQ-GOOD-002",
    description := "Zero bidfloor detected - may indicate test traffic",
    severity := .info, path := some "BidRequest.imp[].bidfloor",
    applies := some fun c => c.root.truthy,
    validate := fun c => do
      let imps ← c.root.gE "imp"
      if !imps.isArr then pure true
      else do
        let s ← jsSome imps fun imp =>
          .ok (jsStrictEq (imp.getD "bidfloor") (.num 0))
        pure (!s) },
  { id := "EQ-Imp-010",
    description := "Mixed bidfloor currencies detected across impressions",
    severity := .error, path := some "BidRequest.imp[]",
    applies := some fun c => c.root.truthy,
    validate := fun c => do
      let imps ← c.root.gE "imp"
      if !imps.isArr then pure true
      else pure (decide ((collectCurrencies imps.items []).length ≤ 1)) }
]

def appRules : List Rule := [
  { id := "Core-App-003",
    description := "app.id must be present and be a non-empty string",
    severity := .error, path := some "BidRequest.app.id",
    specRef := some "OpenRTB 2.6 §3.2.14",
    applies := some fun c => (c.root.getD "app").truthy,
    validate := fun c => do
      let a ← c.root.gE "app"
      pure (isNonEmptyString (a.getD "id")) },
  { id := "Core-App-004",
    description := "app.bundle must be present and be a non-empty string",
    severity := .error, path := some "BidRequest.app.bundle",
    specRef := some "OpenRTB 2.6 §3.2.14",
    applies := some fun c => (c.root.getD "app").truthy,
    validate := fun c => do
      let a ← c.root.gE "app"
      pure (isNonEmptyString (a.getD "bundle")) },
  { id := "Core-App-005",
    description := "app.storeurl must be present and be a non-empty string",
    severity := .error, path := some "BidRequest.app.storeurl",
    specRef := some "OpenRTB 2.6 §3.2.14",
    applies := some fun c => (c.root.getD "app").truthy,
    validate := fun c => do
      let a ← c.root.gE "app"
      pure (isNonEmptyString (a.getD "storeurl")) },
  { id := "Core-App-006",
    description := "app.publisher must be present",
    severity := .error, path := some "BidRequest.app.publisher",
    specRef := some "OpenRTB 2.6 §3.2.14",
    applies := some fun c => (c.root.getD "app").truthy,
    validate := fun c => do
      let a ← c.root.gE "app"
      pure ((a.getD "publisher").truthy) },
  { id := "EQ-App-017",
    description := "app.name must be present and be a non-empty string",
    severity := .warning, path := some "BidRequest.app.name",
    applies := some fun c => (c.root.getD "app").truthy,
    validate := fun c => do
      let a ← c.root.gE "app"
      pure (isNonEmptyString (a.getD "name")) },
  { id := "EQ-App-019",
    description := "app.storeurl contains unresolved macros",
    severity := .error, path := some "BidRequest.app.storeurl",
    applies := some fun c => ((c.root.getD "app").getD "storeurl").truthy,
    validate := fun c => do
      let a ← c.root.gE "app"
      pure (!containsMacros (a.getD "storeurl")) },
  { id := "EQ-App-020",
    description := "app.bundle contains unresolved macros",
    severity := .error, path := some "BidRequest.app.bundle",
    applies := some fun c => ((c.root.getD "app").getD "bundle").truthy,
    validate := fun c => do
      let a ← c.root.gE "app"
      pure (!containsMacros (a.getD "bundle")) }
]

def siteRules : List Rule := [
  { id := "Core-Site-001",
    description := "site.id must be present and be a non-empty string",
    severity := .error, path := some "BidRequest.site.id",
    specRef := some "OpenRTB 2.6 §3.2.13",
    applies := some fun c => (c.root.getD "site").truthy,
    validate := fun c => do
      let s ← c.root.gE "site"
      pure (isNonEmptyString (s.getD "id")) },
  { id := "Core-Site-003",
    description := "site.domain must be present and be a non-empty string",
    severity := .error, path := some "BidRequest.site.domain",
    specRef := some "OpenRTB 2.6 §3.2.13",
    applies := some fun c => (c.root.getD "site").truthy,
    validate := fun c => do
      let s ← c.root.gE "site"
      pure (isNonEmptyString (s.getD "domain")) },
  { id := "Core-Site-004",
    description := "site.publisher must be present",
    severity := .error, path := some "BidRequest.site.publisher",
    specRef := some "OpenRTB 2.6 §3.2.13",
    applies := some fun c => (c.root.getD "site").truthy,
    validate := fun c => do
      let s ← c.root.gE "site"
      pure ((s.getD "publisher").truthy) }
]

/-- EQ-Device-024 (named because our theorems refer to it): the source rule
carries a validate that always returns true with a comment saying the check
is handled by the validateCountryDatacenterMatch helper, which adds issues
directly. -/
def eqDevice024 : Rule :=
  { id := "EQ-Device-024",
    description := "Country continent mismatch with datacenter continent",
    severity := .warning, path := some "BidRequest.device.geo.country",
    applies := some fun c =>
      (((c.root.getD "device").getD "geo").getD "country").truthy &&
        ((c.root.getD "ext").getD "auctionDatacenterId").truthy,
    validate := fun _ => .ok true }

/-- EQ-Device-031 (named because a theorem shows a run in which the engine
throws before reaching it). -/
def eqDevice031 : Rule :=
  { id := "EQ-Device-031",
    description := "device.connectiontype must be present",
    severity := .warning, path := some "BidRequest.device.connectiontype",
    applies := some fun c => (c.root.getD "device").truthy,
    validate := fun c => do
      let d ← c.root.gE "device"
      pure (!(jsStrictEq (d.getD "connectiontype") .undefined)) }

def deviceRules : List Rule := [
  { id := "Core-Device-004",
    description := "device.ua must be present and be a non-empty string",
    severity := .error, path := some "BidRequest.device.ua",
    specRef := some "OpenRTB 2.6 §3.2.18",
    applies := some fun c => (c.root.getD "device").truthy,
    validate := fun c => do
      let d ← c.root.gE "device"
      pure (isNonEmptyString (d.getD "ua")) },
  { id := "Core-Device-005",
    description := "device.ip must be present and be a valid IP address",
    severity := .error, path := some "BidRequest.device.ip",
    specRef := some "OpenRTB 2.6 §3.2.18",
    applies := some fun c => (c.root.getD "device").truthy,
    validate := fun c => do
      let d ← c.root.gE "device"
      let ip := d.getD "ip"
      pure (isNonEmptyString ip && (isValidIPv4 ip || isValidIPv6 ip)) },
  { id := "Core-Device-006",
    description := "device.devicetype must be present and be an integer",
    severity := .error, path := some "BidRequest.device.devicetype",
    specRef := some "OpenRTB 2.6 §3.2.18",
    applies := some fun c => (c.root.getD "device").truthy,
    validate := fun c => do
      let d ← c.root.gE "device"
      pure (jsIsInteger (d.getD "devicetype")) },
  { id := "Core-Device-007",
    description := "device.lmt must be 0 or 1",
    severity := .error, path := some "BidRequest.device.lmt",
    applies := some fun c =>
      (c.root.getD "device").truthy &&
        !(jsStrictEq ((c.root.getD "device").getD "lmt") .undefined),
    validate := fun c => do
      let d ← c.root.gE "device"
      pure (jsStrictEq (d.getD "lmt") (.num 0) || jsStrictEq (d.getD "lmt") (.num 1)) },
  { id := "Core-Device-008",
    description := "device.dnt must be 0 or 1",
    severity := .error, path := some "BidRequest.device.dnt",
    applies := some fun c =>
      (c.root.getD "device").truthy &&
        !(jsStrictEq ((c.root.getD "device").getD "dnt") .undefined),
    validate := fun c => do
      let d ← c.root.gE "device"
      pure (jsStrictEq (d.getD "dnt") (.num 0) || jsStrictEq (d.getD "dnt") (.num 1)) },
  { id := "Core-Device-009",
    description := "Detected truncated IP address",
    severity := .warning, path := some "BidRequest.device.ip",
    applies := some fun c => ((c.root.getD "device").getD "ip").truthy,
    validate := fun c => do
      let d ← c.root.gE "device"
      let ip := d.getD "ip"
      if isValidIPv4 ip then do
        let t ← isTruncatedIP ip
        pure (!t)
      else if isValidIPv6 ip then do
        let t ← isTruncatedIPv6 ip
        pure (!t)
      else pure true },
  { id := "EQ-Device-022",
    description := "device.make must be present and be a non-empty string",
    severity := .error, path := some "BidRequest.device.make",
    applies := some fun c => (c.root.getD "device").truthy,
    validate := fun c => do
      let d ← c.root.gE "device"
      pure (isNonEmptyString (d.getD "make")) },
  { id := "EQ-Device-023",
    description := "device.model must be present and be a non-empty string",
    severity := .error, path := some "BidRequest.device.model",
    applies := some fun c => (c.root.getD "device").truthy,
    validate := fun c => do
      let d ← c.root.gE "device"
      pure (isNonEmptyString (d.getD "model")) },
  eqDevice024,
  { id := "EQ-Device-025",
    description := "device.os must be present and be a non-empty string",
    severity := .error, path := some "BidRequest.device.os",
    applies := some fun c => (c.root.getD "device").truthy,
    validate := fun c => do
      let d ← c.root.gE "device"
      pure (isNonEmptyString (d.getD "os")) },
  { id := "EQ-Device-026",
    description := "device.ifa must be present for mobile devices",
    severity := .error, path := some "BidRequest.device.ifa",
    applies := some fun c =>
      (c.root.getD "device").truthy &&
        (jsStrictEq ((c.root.getD "device").getD "devicetype") (.num 1) ||
         jsStrictEq ((c.root.getD "device").getD "devicetype") (.num 4)),
    validate := fun c => do
      let d ← c.root.gE "device"
      pure (isNonEmptyString (d.getD "ifa")) },
  { id := "EQ-Device-027",
    description := "device.geo must be present",
    severity := .error, path := some "BidRequest.device.geo",
    applies := some fun c => (c.root.getD "device").truthy,
    validate := fun c => do
      let d ← c.root.gE "device"
      pure ((d.getD "geo").truthy) },
  { id := "EQ-Device-028",
    description := "device.geo.country must be present and be a non-empty string",
    severity := .error, path := some "BidRequest.device.geo.country",
    applies := some fun c => ((c.root.getD "device").getD "geo").truthy,
    validate := fun c => do
      let d ← c.root.gE "device"
      let g ← d.gE "geo"
      let cv ← g.gE "country"
      pure (isNonEmptyString cv) },
  { id := "EQ-Device-029",
    description := "Privacy conflict: device.lmt=1 but device.ifa is present",
    severity := .error, path := some "BidRequest.device",
    applies := some fun c =>
      (c.root.getD "device").truthy &&
        jsStrictEq ((c.root.getD "device").getD "lmt") (.num 1),
    validate := fun c => do
      let d ← c.root.gE "device"
      pure (!(d.getD "ifa").truthy) },
  { id := "EQ-Device-030",
    description := "device.ip appears to be truncated or anonymized",
    severity := .warning, path := some "BidRequest.device.ip",
    applies := some fun c => ((c.root.getD "device").getD "ip").truthy,
    validate := fun c => do
      let d ← c.root.gE "device"
      let ip := d.getD "ip"
      let t1 ← isTruncatedIP ip
      if t1 then pure false
      else do
        let t2 ← isTruncatedIPv6 ip
        pure (!t2) },
  eqDevice031,
  { id := "EQ-Device-032",
    description := "device.w (screen width) should be present for mobile devices",
    severity := .warning, path := some "BidRequest.device.w",
    applies := some fun c =>
      (c.root.getD "device").truthy &&
        (jsStrictEq ((c.root.getD "device").getD "devicetype") (.num 1) ||
         jsStrictEq ((c.root.getD "device").getD "devicetype") (.num 4)),
    validate := fun c => do
      let d ← c.root.gE "device"
      pure ((d.getD "w").truthy) },
  { id := "EQ-Device-033",
    description := "device.h (screen height) should be present for mobile devices",
    severity := .warning, path := some "BidRequest.device.h",
    applies := some fun c =>
      (c.root.getD "device").truthy &&
        (jsStrictEq ((c.root.getD "device").getD "devicetype") (.num 1) ||
         jsStrictEq ((c.root.getD "device").getD "devicetype") (.num 4)),
    validate := fun c => do
      let d ← c.root.gE "device"
      pure ((d.getD "h").truthy) },
  { id := "EQ-Device-034",
    description := "device.ppi (pixels per inch) should be present for mobile devices",
    severity := .info, path := some "BidRequest.device.ppi",
    applies := some fun c =>
      (c.root.getD "device").truthy &&
        (jsStrictEq ((c.root.getD "device").getD "devicetype") (.num 1) ||
         jsStrictEq ((c.root.getD "device").getD "devicetype") (.num 4)),
    validate := fun c => do
      let d ← c.root.gE "device"
      pure ((d.getD "ppi").truthy) },
  { id := "EQ-Device-035",
    description := "device.language should be present",
    severity := .info, path := some "BidRequest.device.language",
    applies := some fun c => (c.root.getD "device").truthy,
    validate := fun c => do
      let d ← c.root.gE "device"
      pure ((d.getD "language").truthy) }
]

def videoRules : List Rule := [
  { id := "video-mimes",
    description := "Video.mimes must be a non-empty array of strings.",
    severity := .error, path := some "imp[].video.mimes",
    specRef := some "OpenRTB 2.6 §3.2.7",
    applies := some fun c => c.inventory.contains "video",
    validate := fun c => do
      let imps ← c.root.gE "imp"
      jsEvery imps fun imp =>
        .ok (!(imp.getD "video").truthy ||
          (let m := (imp.getD "video").getD "mimes"
           m.isArr && decide (m.alen > 0))) },
  { id := "video-durations",
    description := "Video.rqddurs and minduration/maxduration are mutually exclusive.",
    severity := .error, path := some "imp[].video",
    applies := some fun c => c.inventory.contains "video",
    validate := fun c => do
      let imps ← c.root.gE "imp"
      jsEvery imps fun imp =>
        .ok (if !(imp.getD "video").truthy then true
          else
            let v := imp.getD "video"
            let hasRange := !(jsStrictEq (v.getD "minduration") .undefined) ||
              !(jsStrictEq (v.getD "maxduration") .undefined)
            let hasList := (v.getD "rqddurs").isArr && decide ((v.getD "rqddurs").alen > 0)
            !(hasRange && hasList)) },
  { id := "EQ-Video-037",
    description := "imp.video.maxduration - imp.video.minduration must be greater than 30 seconds",
    severity := .error, path := some "BidRequest.imp[].video",
    applies := some fun c => c.inventory.contains "video",
    validate := fun c => do
      let imps ← c.root.gE "imp"
      jsEvery imps fun imp =>
        .ok (if !(imp.getD "video").truthy then true
          else
            let v := imp.getD "video"
            if (v.getD "minduration").truthy && (v.getD "maxduration").truthy then
              match jsSub (v.getD "maxduration") (v.getD "minduration") with
              | some d => decide (d ≥ 30)
              | none => false
            else true) },
  { id := "EQ-Video-038",
    description := "imp.video.playbackmethod must be defined",
    severity := .error, path := some "BidRequest.imp[].video.playbackmethod",
    applies := some fun c => c.inventory.contains "video",
    validate := fun c => do
      let imps ← c.root.gE "imp"
      jsEvery imps fun imp =>
        .ok (!(imp.getD "video").truthy ||
             ((imp.getD "video").getD "playbackmethod").truthy) },
  { id := "EQ-Video-039",
    description := "imp.video.placement must be defined",
    severity := .error, path := some "BidRequest.imp[].video.placement",
    applies := some fun c => c.inventory.contains "video",
    validate := fun c => do
      let imps ← c.root.gE "imp"
      jsEvery imps fun imp =>
        .ok (!(imp.getD "video").truthy ||
             !(jsStrictEq ((imp.getD "video").getD "placement") .undefined)) },
  { id := "EQ-Video-040",
    description := "imp.video.playbackmethod must include 1 (Autoplay Sounds On) for In-Stream placement",
    severity := .error, path := some "BidRequest.imp[].video.playbackmethod",
    applies := some fun c => c.inventory.contains "video",
    validate := fun c => do
      let imps ← c.root.gE "imp"
      jsEvery imps fun imp => do
        let v := imp.getD "video"
        if !v.truthy || !(jsStrictEq (v.getD "placement") (.num 1)) then pure true
        else
          let pm := v.getD "playbackmethod"
          if !pm.truthy then pure false
          else jsIncludesMeth pm (.num 1) },
  { id := "EQ-Video-041",
    description := "imp.video.linearity must be defined",
    severity := .error, path := some "BidRequest.imp[].video.linearity",
    applies := some fun c => c.inventory.contains "video",
    validate := fun c => do
      let imps ← c.root.gE "imp"
      jsEvery imps fun imp =>
        .ok (!(imp.getD "video").truthy ||
             !(jsStrictEq ((imp.getD "video").getD "linearity") .undefined)) },
  { id := "EQ-Video-042",
    description := "imp.video.pos (position) must be set",
    severity := .error, path := some "BidRequest.imp[].video.pos",
    applies := some fun c => c.inventory.contains "video",
    validate := fun c => do
      let imps ← c.root.gE "imp"
      jsEvery imps fun imp =>
        .ok (!(imp.getD "video").truthy ||
             !(jsStrictEq ((imp.getD "video").getD "pos") .undefined)) },
  { id := "EQ-Video-043",
    description := "imp.video.protocols must be defined",
    severity := .error, path := some "BidRequest.imp[].video.protocols",
    applies := some fun c => c.inventory.contains "video",
    validate := fun c => do
      let imps ← c.root.gE "imp"
      jsEvery imps fun imp =>
        .ok (!(imp.getD "video").truthy ||
             ((imp.getD "video").getD "protocols").truthy) },
  { id := "EQ-Video-044",
    description := "imp.video.mimes must be defined as an array",
    severity := .error, path := some "BidRequest.imp[].video.mimes",
    applies := some fun c => c.inventory.contains "video",
    validate := fun c => do
      let imps ← c.root.gE "imp"
      jsEvery imps fun imp =>
        .ok (!(imp.getD "video").truthy ||
             ((imp.getD "video").getD "mimes").isArr) },
  { id := "EQ-Video-045",
    description := "video/mp4 mime is not set. Usually video bid requests contain video/mp4 mimes",
    severity := .warning, path := some "BidRequest.imp[].video.mimes",
    applies := some fun c => c.inventory.contains "video",
    validate := fun c => do
      let imps ← c.root.gE "imp"
      jsEvery imps fun imp =>
        .ok (!(imp.getD "video").truthy ||
          (let m := (imp.getD "video").getD "mimes"
           m.isArr && m.items.containsJ (.str "video/mp4"))) },
  { id := "EQ-Video-046",
    description := "imp.video.w (width) must be defined",
    severity := .error, path := some "BidRequest.imp[].video.w",
    applies := some fun c => c.inventory.contains "video",
    validate := fun c => do
      let imps ← c.root.gE "imp"
      jsEvery imps fun imp =>
        .ok (!(imp.getD "video").truthy || ((imp.getD "video").getD "w").truthy) },
  { id := "EQ-Video-047",
    description := "imp.video.h (height) must be defined",
    severity := .error, path := some "BidRequest.imp[].video.h",
    applies := some fun c => c.inventory.contains "video",
    validate := fun c => do
      let imps ← c.root.gE "imp"
      jsEvery imps fun imp =>
        .ok (!(imp.getD "video").truthy || ((imp.getD "video").getD "h").truthy) },
  { id := "EQ-Video-049",
    description := "imp.video.startdelay is recommended",
    severity := .warning, path := some "  BidRequest.imp[].video.startdelay",
    applies := some fun c => c.inventory.contains "video",
    validate := fun c => do
      let imps ← c.root.gE "imp"
      jsEvery imps fun imp =>
        .ok (!(imp.getD "video").truthy ||
             !(jsStrictEq ((imp.getD "video").getD "startdelay") .undefined)) },
  { id := "EQ-Video-050",
    description := "imp.video.startdelay must be an integer (positive, negative or zero)",
    severity := .error, path := some "BidRequest.imp[].video.startdelay",
    applies := some fun c => c.inventory.contains "video",
    validate := fun c => do
      let imps ← c.root.gE "imp"
      jsEvery imps fun imp =>
        .ok (!(imp.getD "video").truthy ||
             jsStrictEq ((imp.getD "video").getD "startdelay") .undefined ||
             jsIsInteger ((imp.getD "video").getD "startdelay")) }
]

def audioRules : List Rule := [
  { id := "Audio-A-001",
    description := "audio.mimes must be a non-empty array of strings",
    severity := .error, path := some "imp[].audio.mimes",
    applies := some fun c => c.inventory.contains "audio",
    validate := fun c => do
      let imps ← c.root.gE "imp"
      jsEvery imps fun imp =>
        .ok (!(imp.getD "audio").truthy ||
          (let m := (imp.getD "audio").getD "mimes"
           m.isArr && decide (m.alen > 0) &&
             m.items.allJ (fun mime => match mime with | .str _ => true | _ => false))) },
  { id := "Audio-A-002",
    description := "audio.mimes should include \"audio/mpeg\"",
    severity := .warning, path := some "imp[].audio.mimes",
    applies := some fun c => c.inventory.contains "audio",
    validate := fun c => do
      let imps ← c.root.gE "imp"
      jsEvery imps fun imp =>
        .ok (!(imp.getD "audio").truthy ||
             !((imp.getD "audio").getD "mimes").isArr ||
             ((imp.getD "audio").getD "mimes").items.containsJ (.str "audio/mpeg")) },
  { id := "Audio-A-003",
    description := "audio.protocols must be a non-empty array of integers",
    severity := .error, path := some "imp[].audio.protocols",
    applies := some fun c => c.inventory.contains "audio",
    validate := fun c => do
      let imps ← c.root.gE "imp"
      jsEvery imps fun imp =>
        .ok (!(imp.getD "audio").truthy ||
          (let p := (imp.getD "audio").getD "protocols"
           p.isArr && decide (p.alen > 0))) },
  { id := "Audio-A-004",
    description := "maxduration must be ≥ minduration",
    severity := .error, path := some "imp[].audio.minduration/maxduration",
    applies := some fun c => c.inventory.contains "audio",
    validate := fun c => do
      let imps ← c.root.gE "imp"
      jsEvery imps fun imp =>
        .ok (!(imp.getD "audio").truthy ||
             !((imp.getD "audio").getD "minduration").truthy ||
             !((imp.getD "audio").getD "maxduration").truthy ||
             jsGe ((imp.getD "audio").getD "maxduration")
                  ((imp.getD "audio").getD "minduration")) },
  { id := "Audio-A-005",
    description := "audio.stitch must be 0 or 1 when present",
    severity := .error, path := some "imp[].audio.stitch",
    applies := some fun c => c.inventory.contains "audio",
    validate := fun c => do
      let imps ← c.root.gE "imp"
      jsEvery imps fun imp =>
        .ok (!(imp.getD "audio").truthy ||
             jsStrictEq ((imp.getD "audio").getD "stitch") .undefined ||
             jsStrictEq ((imp.getD "audio").getD "stitch") (.num 0) ||
             jsStrictEq ((imp.getD "audio").getD "stitch") (.num 1)) }
]

/-- The native rule set calls JSON.parse on imp.native.request, so it is
parameterised by the platform parse function. -/
def nativeRules (jp : StrParse) : List Rule := [
  { id := "Native-N-001",
    description := "native.request must be present and be a string",
    severity := .error, path := some "BidRequest.imp[].native.request",
    applies := some fun c => c.inventory.contains "native",
    validate := fun c => do
      let imps ← c.root.gE "imp"
      jsEvery imps fun imp =>
        .ok (!(imp.getD "native").truthy ||
             isNonEmptyString ((imp.getD "native").getD "request")) },
  { id := "Native-N-002",
    description := "Native request must contain ver (version string)",
    severity := .error, path := some "BidRequest.imp[].native.request.ver",
    applies := some fun c => c.inventory.contains "native",
    validate := fun c => do
      let imps ← c.root.gE "imp"
      jsEvery imps fun imp =>
        .ok (if !((imp.getD "native").getD "request").truthy then true
          else
            match jp (jsToString ((imp.getD "native").getD "request")) with
            | .error _ => false
            | .ok nr => tryCatchB (do
                let v ← nr.gE "ver"
                pure v.truthy) false) },
  { id := "Native-N-003",
    description := "Native request must contain a non-empty assets array",
    severity := .error, path := some "BidRequest.imp[].native.request.assets",
    applies := some fun c => c.inventory.contains "native",
    validate := fun c => do
      let imps ← c.root.gE "imp"
      jsEvery imps fun imp =>
        .ok (if !((imp.getD "native").getD "request").truthy then true
          else
            match jp (jsToString ((imp.getD "native").getD "request")) with
            | .error _ => false
            | .ok nr => tryCatchB (do
                let a ← nr.gE "assets"
                pure (a.isArr && decide (a.alen > 0))) false) },
  { id := "Native-N-004",
    description := "Each native asset must have an id",
    severity := .error, path := some "BidRequest.imp[].native.request.assets[].id",
    applies := some fun c => c.inventory.contains "native",
    validate := fun c => do
      let imps ← c.root.gE "imp"
      jsEvery imps fun imp =>
        .ok (if !((imp.getD "native").getD "request").truthy then true
          else
            match jp (jsToString ((imp.getD "native").getD "request")) with
            | .error _ => false
            | .ok nr => tryCatchB (do
                let a ← nr.gE "assets"
                if !a.isArr then pure true
                else jsEvery a (fun asset => .ok ((asset.getD "id").truthy))) false) },
  { id := "Native-N-005",
    description := "Each asset must have either title, img, video, or data",
    severity := .error, path := some "BidRequest.imp[].native.request.assets[]",
    applies := some fun c => c.inventory.contains "native",
    validate := fun c => do
      let imps ← c.root.gE "imp"
      jsEvery imps fun imp =>
        .ok (if !((imp.getD "native").getD "request").truthy then true
          else
            match jp (jsToString ((imp.getD "native").getD "request")) with
            | .error _ => false
            | .ok nr => tryCatchB (do
                let a ← nr.gE "assets"
                if !a.isArr then pure true
                else jsEvery a (fun asset =>
                  .ok ((asset.getD "title").truthy || (asset.getD "img").truthy ||
                       (asset.getD "video").truthy || (asset.getD "data").truthy))) false) },
  { id := "Native-N-006",
    description := "native.request must be valid JSON",
    severity := .error, path := some "BidRequest.imp[].native.request",
    applies := some fun c => c.inventory.contains "native",
    validate := fun c => do
      let imps ← c.root.gE "imp"
      jsEvery imps fun imp =>
        .ok (if !((imp.getD "native").getD "request").truthy then true
          else
            match jp (jsToString ((imp.getD "native").getD "request")) with
            | .ok _ => true
            | .error _ => false) }
]

def bannerRules : List Rule := [
  { id := "banner-dimensions",
    description := "Banner impression must define w/h or a non-empty format array.",
    severity := .error, path := some "imp[].banner",
    specRef := some "OpenRTB 2.6 §3.2.6",
    applies := some fun c => c.inventory.contains "banner",
    validate := fun c => do
      let imps ← c.root.gE "imp"
      jsEvery imps fun imp =>
        .ok (if !(imp.getD "banner").truthy then true
          else
            let b := imp.getD "banner"
            if jsGt (b.getD "w") (.num 0) && jsGt (b.getD "h") (.num 0) then true
            else if (b.getD "format").isArr && decide ((b.getD "format").alen > 0) then
              (b.getD "format").items.allJ (fun f =>
                jsGt (f.getD "w") (.num 0) && jsGt (f.getD "h") (.num 0))
            else false) },
  { id := "Banner-B-001",
    description := "banner must contain either w/h or format array",
    severity := .error, path := some "BidRequest.imp[].banner",
    applies := some fun c => c.inventory.contains "banner",
    validate := fun c => do
      let imps ← c.root.gE "imp"
      jsEvery imps fun imp =>
        .ok (if !(imp.getD "banner").truthy then true
          else
            let b := imp.getD "banner"
            let hasWH := !(jsStrictEq (b.getD "w") .undefined) &&
              !(jsStrictEq (b.getD "h") .undefined)
            let hasFormat := (b.getD "format").truthy && (b.getD "format").isArr &&
              decide ((b.getD "format").alen > 0)
            hasWH || hasFormat) },
  { id := "Banner-B-002",
    description := "Each format entry must have w and h",
    severity := .error, path := some "BidRequest.imp[].banner.format[]",
    applies := some fun c => c.inventory.contains "banner",
    validate := fun c => do
      let imps ← c.root.gE "imp"
      jsEvery imps fun imp => do
        if !((imp.getD "banner").getD "format").truthy then pure true
        else jsEvery ((imp.getD "banner").getD "format") fun f =>
          .ok ((f.getD "w").truthy && (f.getD "h").truthy) }
]

def ctvRules : List Rule := [
  { id := "EQ-CTV-053",
    description := "CTV video should have 16:9 aspect ratio",
    severity := .warning, path := some "imp[].video",
    applies := some fun c => c.isCTV && c.inventory.contains "video",
    validate := fun c => do
      let imps ← c.root.gE "imp"
      jsEvery imps fun imp =>
        .ok (if !(imp.getD "video").truthy then true
          else
            let v := imp.getD "video"
            if (v.getD "w").truthy && (v.getD "h").truthy then
              -- w / h within 0.1 of 16/9 (floating point in the source;
              -- exact rational arithmetic here, indistinguishable at this
              -- tolerance for the integral dimensions requests carry)
              match (v.getD "w").toNum, (v.getD "h").toNum with
              | some a, some b =>
                if b == 0 then false
                else decide (|a / b - 16 / 9| < (1 : Rat) / 10)
              | _, _ => false
            else true) },
  { id := "EQ-CTV-052",
    description := "CTV: imp.video.pos must be set to 7 (Full Screen)",
    severity := .error, path := some "BidRequest.imp[].video.pos",
    applies := some fun c => c.isCTV && c.inventory.contains "video",
    validate := fun c => do
      let imps ← c.root.gE "imp"
      jsEvery imps fun imp =>
        .ok (!(imp.getD "video").truthy ||
             jsStrictEq ((imp.getD "video").getD "pos") (.num 7)) },
  { id := "EQ-CTV-051",
    description := "CTV: imp.video.pos must be defined",
    severity := .error, path := some "BidRequest.imp[].video.pos",
    applies := some fun c => c.isCTV && c.inventory.contains "video",
    validate := fun c => do
      let imps ← c.root.gE "imp"
      jsEvery imps fun imp =>
        .ok (!(imp.getD "video").truthy ||
             !(jsStrictEq ((imp.getD "video").getD "pos") .undefined)) },
  { id := "EQ-CTV-054",
    description := "app object must be defined for CTV requests",
    severity := .error, path := some "BidRequest.app",
    applies := some fun c => c.isCTV,
    validate := fun c => do
      let a ← c.root.gE "app"
      pure a.truthy },
  { id := "CTV-007",
    description := "CTV video pos must be 7 (Full Screen)",
    severity := .error, path := some "BidRequest.imp[].video.pos",
    applies := some fun c => c.isCTV && c.inventory.contains "video",
    validate := fun c => do
      let imps ← c.root.gE "imp"
      jsEvery imps fun imp =>
        .ok (!(imp.getD "video").truthy ||
             jsStrictEq ((imp.getD "video").getD "pos") (.num 7)) },
  { id := "CTV-001",
    description := "CTV requests must contain video impressions",
    severity := .error, path := some "BidRequest.imp",
    applies := some fun c => c.isCTV,
    validate := fun c => do
      let imps ← c.root.gE "imp"
      if !imps.truthy then pure false
      else jsSome imps fun imp => .ok ((imp.getD "video").truthy) },
  { id := "CTV-002",
    description := "CTV requests must contain app object",
    severity := .error, path := some "BidRequest.app",
    applies := some fun c => c.isCTV,
    validate := fun c => do
      let a ← c.root.gE "app"
      pure a.truthy },
  { id := "CTV-003",
    description := "CTV requests must contain device.ifa or equivalent ID",
    severity := .error, path := some "BidRequest.device",
    applies := some fun c => c.isCTV,
    validate := fun c => do
      let d ← c.root.gE "device"
      pure (d.truthy && ((d.getD "ifa").truthy ||
        (((d.getD "ext").getD "ids").getD "idfa").truthy ||
        (((d.getD "ext").getD "ids").getD "rida").truthy)) },
  { id := "CTV-004",
    description := "CTV requests must contain device.make and device.model",
    severity := .error, path := some "BidRequest.device",
    applies := some fun c => c.isCTV,
    validate := fun c => do
      let d ← c.root.gE "device"
      pure (d.truthy && (d.getD "make").truthy && (d.getD "model").truthy) },
  { id := "CTV-005",
    description := "CTV video placement must be 1 (In-Stream)",
    severity := .error, path := some "BidRequest.imp[].video.placement",
    applies := some fun c => c.isCTV && c.inventory.contains "video",
    validate := fun c => do
      let imps ← c.root.gE "imp"
      jsEvery imps fun imp =>
        .ok (!(imp.getD "video").truthy ||
             jsStrictEq ((imp.getD "video").getD "placement") (.num 1)) },
  { id := "CTV-006",
    description := "CTV video linearity must be 1 (Linear)",
    severity := .error, path := some "BidRequest.imp[].video.linearity",
    applies := some fun c => c.isCTV && c.inventory.contains "video",
    validate := fun c => do
      let imps ← c.root.gE "imp"
      jsEvery imps fun imp =>
        .ok (!(imp.getD "video").truthy ||
             jsStrictEq ((imp.getD "video").getD "linearity") (.num 1)) }
]

def doohRules : List Rule := [
  { id := "dooh-qty",
    description := "imp.qty.multiplier must be a positive number for DOOH.",
    severity := .error, path := some "imp[].qty.multiplier",
    applies := some fun c => c.inventory.contains "dooh",
    validate := fun c => do
      let imps ← c.root.gE "imp"
      jsEvery imps fun imp =>
        .ok (!(imp.getD "qty").truthy ||
             jsGt ((imp.getD "qty").getD "multiplier") (.num 0)) },
  { id := "DOOH-001",
    description := "DOOH requests must contain dooh object in impression or bid request",
    severity := .error, path := some "BidRequest",
    applies := some fun c =>
      (c.root.getD "device").truthy &&
        jsStrictEq ((c.root.getD "device").getD "devicetype") (.num 6),
    validate := fun c => do
      let impsV := c.root.getD "imp"
      let part ← if impsV.isNullish then pure false
        else jsSome impsV fun imp => .ok ((imp.getD "dooh").truthy)
      pure (part || (c.root.getD "dooh").truthy) },
  { id := "DOOH-002",
    description := "DOOH object must contain venuetype",
    severity := .error, path := some "dooh.venuetype",
    applies := some fun c =>
      (c.root.getD "device").truthy &&
        jsStrictEq ((c.root.getD "device").getD "devicetype") (.num 6),
    validate := fun c => do
      let base : List JVal :=
        if (c.root.getD "dooh").truthy then [c.root.getD "dooh"] else []
      let impsV := c.root.getD "imp"
      let fromImps ← if impsV.truthy then
          (match impsV with
           | .arr xs => .ok (collectDooh xs)
           | _ => .error ())
        else pure []
      pure ((base ++ fromImps).all fun d => (d.getD "venuetype").truthy) },
  { id := "DOOH-003",
    description := "DOOH object should contain venuetypetax",
    severity := .warning, path := some "dooh.venuetypetax",
    applies := some fun c =>
      (c.root.getD "device").truthy &&
        jsStrictEq ((c.root.getD "device").getD "devicetype") (.num 6),
    validate := fun c => do
      let base : List JVal :=
        if (c.root.getD "dooh").truthy then [c.root.getD "dooh"] else []
      let impsV := c.root.getD "imp"
      let fromImps ← if impsV.truthy then
          (match impsV with
           | .arr xs => .ok (collectDooh xs)
           | _ => .error ())
        else pure []
      pure ((base ++ fromImps).all fun d => (d.getD "venuetypetax").truthy) }
]

def sharethroughRules : List Rule := [
  { id := "st-pkey",
    description := "Sharethrough profile: ext.sharethrough.pkey is required.",
    severity := .error, path := some "imp[].ext.sharethrough.pkey",
    applies := some fun c => c.partnerProfile == some "sharethrough",
    validate := fun c => do
      let imps ← c.root.gE "imp"
      jsEvery imps fun imp =>
        .ok (isNonEmptyString (((imp.getD "ext").getD "sharethrough").getD "pkey")) }
]

def privacyRules : List Rule := [
  { id := "regs-gdpr",
    description := "If regs.gdpr is present, it must be 0 or 1.",
    severity := .error, path := some "regs.gdpr",
    specRef := some "OpenRTB 2.6 §3.2.3",
    applies := some fun c =>
      (c.root.getD "regs").truthy &&
        !(jsStrictEq ((c.root.getD "regs").getD "gdpr") .undefined),
    validate := fun c => do
      let r ← c.root.gE "regs"
      pure (jsStrictEq (r.getD "gdpr") (.num 0) || jsStrictEq (r.getD "gdpr") (.num 1)) },
  { id := "gdpr-consent",
    description := "GDPR=1 but user.ext.consent is missing or empty.",
    severity := .error, path := some "user.ext.consent",
    specRef := some "IAB TCF v2.x",
    applies := some fun c =>
      jsStrictEq ((c.root.getD "regs").getD "gdpr") (.num 1),
    validate := fun c => do
      let u ← c.root.gE "user"
      pure (isNonEmptyString ((u.getD "ext").getD "consent")) },
  { id := "Core-Regs-001",
    description := "regs.coppa must be 0 or 1",
    severity := .error, path := some "BidRequest.regs.coppa",
    specRef := some "OpenRTB 2.6 §3.2.3",
    applies := some fun c =>
      (c.root.getD "regs").truthy &&
        !(jsStrictEq ((c.root.getD "regs").getD "coppa") .undefined),
    validate := fun c => do
      let r ← c.root.gE "regs"
      pure (jsStrictEq (r.getD "coppa") (.num 0) || jsStrictEq (r.getD "coppa") (.num 1)) },
  { id := "Core-Regs-002",
    description := "regs.ext.gdpr must be 0 or 1",
    severity := .warning, path := some "BidRequest.regs.ext.gdpr",
    specRef := some "OpenRTB 2.6 §3.2.3",
    applies := some fun c =>
      ((c.root.getD "regs").getD "ext").truthy &&
        !(jsStrictEq (((c.root.getD "regs").getD "ext").getD "gdpr") .undefined),
    validate := fun c => do
      let r ← c.root.gE "regs"
      pure (jsStrictEq ((r.getD "ext").getD "gdpr") (.num 0) ||
            jsStrictEq ((r.getD "ext").getD "gdpr") (.num 1)) },
  { id := "Core-Regs-003",
    description := "user.ext.consent (TCF String) must be present when gdpr=1",
    severity := .error, path := some "BidRequest.user.ext.consent",
    specRef := some "IAB TCF v2.x",
    applies := some fun c =>
      jsStrictEq (((c.root.getD "regs").getD "ext").getD "gdpr") (.num 1),
    validate := fun c => do
      let u ← c.root.gE "user"
      pure (isNonEmptyString ((u.getD "ext").getD "consent")) },
  { id := "Core-Regs-004",
    description := "regs.gpp_sid must be present when gpp is specified",
    severity := .error, path := some "BidRequest.regs.gpp_sid",
    specRef := some "OpenRTB 2.6 §3.2.3",
    applies := some fun c => ((c.root.getD "regs").getD "gpp").truthy,
    validate := fun c => do
      let r ← c.root.gE "regs"
      pure ((r.getD "gpp_sid").truthy) }
]

def sourceRules : List Rule := [
  { id := "Core-Source-001",
    description := "source.schain (SupplyChain Object) must be present",
    severity := .error, path := some "BidRequest.source.schain",
    specRef := some "OpenRTB 2.6 §3.2.2",
    applies := some fun c => (c.root.getD "source").truthy,
    validate := fun c => do
      let s ← c.root.gE "source"
      pure ((s.getD "schain").truthy) },
  { id := "Core-Source-002",
    description := "schain.complete must be 1",
    severity := .error, path := some "BidRequest.source.schain.complete",
    specRef := some "OpenRTB 2.6 §3.2.2",
    applies := some fun c => ((c.root.getD "source").getD "schain").truthy,
    validate := fun c => do
      let s ← c.root.gE "source"
      pure (jsStrictEq ((s.getD "schain").getD "complete") (.num 1)) },
  { id := "Core-Source-003",
    description := "schain.nodes must be a non-empty array",
    severity := .error, path := some "BidRequest.source.schain.nodes",
    specRef := some "OpenRTB 2.6 §3.2.2",
    applies := some fun c => ((c.root.getD "source").getD "schain").truthy,
    validate := fun c => do
      let s ← c.root.gE "source"
      let n := (s.getD "schain").getD "nodes"
      pure (n.isArr && decide (n.alen > 0)) },
  { id := "Core-Source-004",
    description := "Each schain node must contain asi, sid, and hp",
    severity := .error, path := some "BidRequest.source.schain.nodes[]",
    specRef := some "OpenRTB 2.6 §3.2.2",
    applies := some fun c =>
      (((c.root.getD "source").getD "schain").getD "nodes").truthy,
    validate := fun c => do
      let s ← c.root.gE "source"
      jsEvery ((s.getD "schain").getD "nodes") fun node =>
        .ok ((node.getD "asi").truthy && (node.getD "sid").truthy &&
             !(jsStrictEq (node.getD "hp") .undefined)) },
  { id := "EQ-Source-021",
    description := "source.schain must be defined",
    severity := .error, path := some "BidRequest.source.schain",
    applies := some fun c => (c.root.getD "source").truthy,
    validate := fun c => do
      let s ← c.root.gE "source"
      pure ((s.getD "schain").truthy || ((s.getD "ext").getD "schain").truthy) }
]

def advancedRules : List Rule := [
  { id := "Advanced-001",
    description := "Bid request contains un-replaced macros",
    severity := .error, path := some "BidRequest",
    applies := some fun c => c.root.truthy,
    validate := fun c => .ok (!macroScan (jsonStringify c.root).data) },
  { id := "Advanced-002",
    description := "device.ext.is_app=1 but no app object present",
    severity := .error, path := some "BidRequest",
    applies := some fun c =>
      (((c.root.getD "device").getD "ext").getD "is_app").truthy &&
        jsStrictEq (((c.root.getD "device").getD "ext").getD "is_app") (.num 1),
    validate := fun c => do
      let a ← c.root.gE "app"
      pure a.truthy },
  { id := "Advanced-003",
    description := "device.ext.is_app=0 but no site object present",
    severity := .error, path := some "BidRequest",
    applies := some fun c =>
      (((c.root.getD "device").getD "ext").getD "is_app").truthy &&
        jsStrictEq (((c.root.getD "device").getD "ext").getD "is_app") (.num 0),
    validate := fun c => do
      let s ← c.root.gE "site"
      pure s.truthy },
  { id := "Advanced-004",
    description := "user.eids must be an array",
    severity := .warning, path := some "BidRequest.user.eids",
    applies := some fun c => ((c.root.getD "user").getD "eids").truthy,
    validate := fun c => do
      let u ← c.root.gE "user"
      pure ((u.getD "eids").isArr) },
  { id := "Advanced-005",
    description := "Each EID must have source and uids",
    severity := .error, path := some "BidRequest.user.eids[]",
    applies := some fun c =>
      ((c.root.getD "user").getD "eids").truthy &&
        ((c.root.getD "user").getD "eids").isArr,
    validate := fun c => do
      let u ← c.root.gE "user"
      jsEvery (u.getD "eids") fun eid =>
        .ok ((eid.getD "source").truthy && (eid.getD "uids").truthy) },
  { id := "Advanced-006",
    description := "Each UID must have an id",
    severity := .error, path := some "BidRequest.user.eids[].uids[]",
    applies := some fun c =>
      ((c.root.getD "user").getD "eids").truthy &&
        ((c.root.getD "user").getD "eids").isArr,
    validate := fun c => do
      let u ← c.root.gE "user"
      jsEvery (u.getD "eids") fun eid => do
        if !(eid.getD "uids").isArr then pure true
        else jsEvery (eid.getD "uids") fun uid => .ok ((uid.getD "id").truthy) }
]

/- ------------------------------------------------------------------ -/
/-  Rule evaluator and the analyse entry point                         -/
/- ------------------------------------------------------------------ -/

/-- The fixed order of rule sets from the source. -/
def allRuleSets (jp : StrParse) : List (List Rule) :=
  [coreRules, impressionRules, appRules, siteRules, deviceRules, videoRules,
   audioRules, nativeRules jp, bannerRules, ctvRules, doohRules,
   sharethroughRules, privacyRules, sourceRules, advancedRules]

/-- The flattened catalogue (the engine iterates sets, then rules, in
declaration order, which is exactly iteration over the concatenation). -/
def allRules (jp : StrParse) : List Rule := (allRuleSets jp).flatten

/-- The issue built from a failing rule's metadata. -/
def mkIssue (r : Rule) : Issue :=
  { id := r.id, severity := r.severity, message := r.description,
    path := r.path, specRef := r.specRef }

/-- Evaluate a rule's validate and turn a falsy result into an issue. -/
def checkRule (r : Rule) (c : Context) : Except Unit (List Issue) :=
  match r.validate c with
  | .error e => .error e
  | .ok valid => .ok (if valid then [] else [mkIssue r])

/-- One step of the loop: if (!rule.applies || rule.applies(ctx)) then
evaluate validate. -/
def runRule (r : Rule) (c : Context) : Except Unit (List Issue) :=
  match r.applies with
  | some a => if a c then checkRule r c else .ok []
  | none => checkRule r c

/-- The full pass, collecting issues in catalogue order; an exception in a
validate propagates (there is no try/catch around the loop). -/
def runRules : List Rule → Context → Except Unit (List Issue)
  | [], _ => .ok []
  | r :: rest, c =>
    match runRule r c with
    | .error e => .error e
    | .ok here =>
      match runRules rest c with
      | .error e => .error e
      | .ok tail => .ok (here ++ tail)

/-- The cross-field pass that follows the rule loop: store-URL/bundle
consistency, then country/datacenter consistency, appending to the issue
list. -/
def crossFieldIssues (root : JVal) : Except Unit (List Issue) :=
  if root.truthy then do
    let app := root.getD "app"
    let store ←
      if app.truthy && (app.getD "storeurl").truthy && (app.getD "bundle").truthy then
        validateStoreUrlAndBundle (app.getD "storeurl") (app.getD "bundle")
      else pure []
    let dc :=
      if (((root.getD "device").getD "geo").getD "country").truthy &&
          ((root.getD "ext").getD "auctionDatacenterId").truthy then
        validateCountryDatacenterMatch
          (((root.getD "device").getD "geo").getD "country")
          ((root.getD "ext").getD "auctionDatacenterId")
      else []
    pure (store ++ dc)
  else pure []

/-- The per-format step of the mediaFormats derivation: audio gains an AAC
tag when some impression's audio mimes include audio/aac, native gains a
Video-Ad tag when some native request declares a video asset. -/
def mediaFormatEntry (jp : StrParse) (root : JVal) (format : String) :
    Except Unit (List String) :=
  if format == "audio" && (root.getD "imp").truthy then do
    let hasAAC ← jsSome (root.getD "imp") fun imp =>
      let m := (imp.getD "audio").getD "mimes"
      if m.isNullish then .ok false
      else jsIncludesMeth m (.str "audio/aac")
    pure (if hasAAC then ["audio", "AAC"] else ["audio"])
  else if format == "native" && (root.getD "imp").truthy then do
    let hasVideoAd ← jsSome (root.getD "imp") fun imp =>
      .ok (if !((imp.getD "native").getD "request").truthy then false
        else
          match jp (jsToString ((imp.getD "native").getD "request")) with
          | .error _ => false
          | .ok nr => tryCatchB (do
              let a ← nr.gE "assets"
              if a.isNullish then pure false
              else jsSome a fun asset => .ok ((asset.getD "video").truthy)) false)
    pure (if hasVideoAd then ["native", "Video-Ad"] else ["native"])
  else pure [format]

/-- Array.from(ctx.inventory).map(mediaFormatEntry).flat(). -/
def mediaFormatsOf (jp : StrParse) (root : JVal) : List String → Except Unit (List String)
  | [] => .ok []
  | f :: t => do
    let h ← mediaFormatEntry jp root f
    let r ← mediaFormatsOf jp root t
    pure (h ++ r)

/-- requestType from the mediaFormats list: a single entry goes through the
capitalisation map with Unknown default, several entries are Mixed, none is
Unknown. -/
def requestTypeOf (mf : List String) : String :=
  if mf.length == 1 then
    match mf with
    | "banner" :: _ => "Banner"
    | "video" :: _ => "Video"
    | "audio" :: _ => "Audio"
    | "native" :: _ => "Native"
    | _ => "Unknown"
  else if 1 < mf.length then "Mixed"
  else "Unknown"

/-- platform: root?.app ? App : root?.site ? Site : Unknown. -/
def platformOf (root : JVal) : String :=
  if (root.getD "app").truthy then "App"
  else if (root.getD "site").truthy then "Site"
  else "Unknown"

/-- impressions: Array.isArray(root?.imp) ? root.imp.length : 0. -/
def impressionsOf (root : JVal) : Nat :=
  if (root.getD "imp").isArr then (root.getD "imp").alen else 0

/-- geo: root?.device?.geo?.country || the N/A sentinel. -/
def geoOf (root : JVal) : JVal :=
  let c := ((root.getD "device").getD "geo").getD "country"
  if c.truthy then c else .str "N/A"

/-- The Summary Deriver. -/
def deriveSummary (jp : StrParse) (root : JVal) (ctx : Context) :
    Except Unit AnalysisSummary :=
  match mediaFormatsOf jp root ctx.inventory with
  | .error e => .error e
  | .ok mf =>
    .ok { requestType := requestTypeOf mf
          mediaFormats := mf
          impressions := impressionsOf root
          platform := platformOf root
          deviceType := deviceTypeOf ((root.getD "device").getD "devicetype")
          geo := geoOf root }

/-- The result of the parse-failure branch of analyse. -/
def parseFailureResult (m : String) : AnalysisResult :=
  { summary := { requestType := "Unknown", mediaFormats := [], impressions := 0,
                 platform := "Unknown", deviceType := "Unknown", geo := .str "N/A" },
    issues := [{ id := "json-parse", severity := .error,
                 message := "Invalid JSON: " ++ m }],
    request := .undefined,
    error := some ("Invalid JSON: " ++ m) }

/-- Everything that happens after a successful parse and root search:
context building, the rule pass, the cross-field pass and the summary. -/
def analyseRoot (jp : StrParse) (root : JVal) (options : AnalyseOptions) :
    Except Unit AnalysisResult :=
  match runRules (allRules jp) (buildContext root options) with
  | .error e => .error e
  | .ok ruleIssues =>
    match crossFieldIssues root with
    | .error e => .error e
    | .ok cross =>
      match deriveSummary jp root (buildContext root options) with
      | .error e => .error e
      | .ok summary =>
        .ok { summary := summary, issues := ruleIssues ++ cross,
              request := root, error := none }

/-- One uncached analysis of a text: parse, locate the root, analyse it. -/
def analyseCore (jp : StrParse) (jsonText : String) (options : AnalyseOptions) :
    Except Unit AnalysisResult :=
  match jp jsonText with
  | .error m => .ok (parseFailureResult m)
  | .ok v => analyseRoot jp (findBidRequest v) options

/-- The parseCache, modelled as explicit state: an association list keyed
by the exact input text (Map.set shadows, so inserting at the front and
taking the first hit is observationally the source's Map). -/
def Cache : Type := List (String × AnalysisResult)

/-- parseCache.get. -/
def Cache.findC : Cache → String → Option AnalysisResult
  | [], _ => none
  | (k, r) :: rest, t => if k = t then some r else Cache.findC rest t

/-- The primary analyse function with its memoisation: a cache hit returns
the stored result unchanged; otherwise the computed result (including the
parse-failure result) is stored; an escaping exception stores nothing. -/
def analyse (jp : StrParse) (jsonText : String) (options : AnalyseOptions)
    (cache : Cache) : Except Unit AnalysisResult × Cache :=
  match Cache.findC cache jsonText with
  | some cached => (.ok cached, cache)
  | none =>
    match analyseCore jp jsonText options with
    | .ok result => (.ok result, (jsonText, result) :: cache)
    | .error e => (.error e, cache)

/- ------------------------------------------------------------------ -/
/-  Concrete payloads and expected results used by the theorems        -/
/- ------------------------------------------------------------------ -/

/-- A stub parse function that parses every text to a fixed value (the
theorems below that quantify over the parse function are instantiated with
these). -/
def jpOf (v : JVal) : StrParse := fun _ => .ok v

/-- The issue of the missing-request rule. -/
def missingRequestIssue : Issue :=
  { id := "missing-request", severity := .error,
    message := "No valid OpenRTB bid request found.", path := none, specRef := none }

/-- The full result of an analysis in which the text parses but no bid
request object is found, under default options. -/
def missingRootResult : AnalysisResult :=
  { summary := { requestType := "Unknown", mediaFormats := [], impressions := 0,
                 platform := "Unknown", deviceType := "Unknown", geo := .str "N/A" },
    issues := [missingRequestIssue], request := .null, error := none }

/-- A syntactically valid request whose device.ip is the number 1: truthy,
so the truncation rules apply to it, and not a string, so the string
methods inside isTruncatedIP throw. -/
def cexDeviceIpNum : JVal := .objOf [("id", .str "a"), ("imp", .arrOf []),
  ("device", .objOf [("ip", .num 1)])]

/-- A request with exactly one media format present (audio) whose mimes
include audio/aac. -/
def cexAudioAAC : JVal := .objOf [("id", .str "r1"),
  ("imp", .arrOf [.objOf [("id", .str "1"),
    ("audio", .objOf [("mimes", .arrOf [.str "audio/aac"])])]])]

/-- The analysis result for cexAudioAAC under default options. -/
def cexAudioAACResult : AnalysisResult :=
  { summary := { requestType := "Mixed", mediaFormats := ["audio", "AAC"],
                 impressions := 1, platform := "Unknown", deviceType := "Unknown",
                 geo := .str "N/A" },
    issues := [
      { id := "Core-BR-004", severity := .error,
        message := "BidRequest.at (auction type) must be present and be an integer",
        path := some "BidRequest.at", specRef := some "OpenRTB 2.6 §3.2.1" },
      { id := "Core-BR-005", severity := .error,
        message := "Exactly one of BidRequest.app or BidRequest.site must be present",
        path := none, specRef := some "OpenRTB 2.6 §3.2.1" },
      { id := "Core-BR-009", severity := .warning,
        message := "tmax (timeout) should be present and greater than 0",
        path := some "BidRequest.tmax", specRef := some "OpenRTB 2.6 §3.2.1" },
      { id := "EQ-BR-002", severity := .error,
        message := "BidRequest must contain a device object",
        path := some "BidRequest.device" },
      { id := "EQ-BR-004", severity := .error,
        message := "BidRequest must contain a source object",
        path := some "BidRequest.source" },
      { id := "EQ-BR-005", severity := .error,
        message := "BidRequest must contain a user object",
        path := some "BidRequest.user" },
      { id := "Audio-A-002", severity := .warning,
        message := "audio.mimes should include \"audio/mpeg\"",
        path := some "imp[].audio.mimes" },
      { id := "Audio-A-003", severity := .error,
        message := "audio.protocols must be a non-empty array of integers",
        path := some "imp[].audio.protocols" }],
    request := cexAudioAAC, error := none }

/-- A request carrying both an app and a site object. -/
def cexAppAndSite : JVal := .objOf [("id", .str "r1"), ("imp", .arrOf []),
  ("app", .objOf [("id", .str "a")]), ("site", .objOf [("id", .str "s")])]

/-- The analysis result for cexAppAndSite under default options. -/
def cexAppAndSiteResult : AnalysisResult :=
  { summary := { requestType := "Unknown", mediaFormats := [], impressions := 0,
                 platform := "App", deviceType := "Unknown", geo := .str "N/A" },
    issues := [
      { id := "Core-BR-003", severity := .error,
        message := "BidRequest.imp must be a non-empty array",
        path := some "BidRequest.imp", specRef := some "OpenRTB 2.6 §3.2.1" },
      { id := "Core-BR-004", severity := .error,
        message := "BidRequest.at (auction type) must be present and be an integer",
        path := some "BidRequest.at", specRef := some "OpenRTB 2.6 §3.2.1" },
      { id := "Core-BR-005", severity := .error,
        message := "Exactly one of BidRequest.app or BidRequest.site must be present",
        path := none, specRef := some "OpenRTB 2.6 §3.2.1" },
      { id := "Core-BR-006", severity := .error,
        message := "BidRequest must not contain both site and app objects",
        path := some "BidRequest", specRef := some "OpenRTB 2.6 §3.2.1" },
      { id := "Core-BR-009", severity := .warning,
        message := "tmax (timeout) should be present and greater than 0",
        path := some "BidRequest.tmax", specRef := some "OpenRTB 2.6 §3.2.1" },
      { id := "EQ-BR-002", severity := .error,
        message := "BidRequest must contain a device object",
        path := some "BidRequest.device" },
      { id := "EQ-BR-004", severity := .error,
        message := "BidRequest must contain a source object",
        path := some "BidRequest.source" },
      { id := "EQ-BR-005", severity := .error,
        message := "BidRequest must contain a user object",
        path := some "BidRequest.user" },
      { id := "Core-App-004", severity := .error,
        message := "app.bundle must be present and be a non-empty string",
        path := some "BidRequest.app.bundle", specRef := some "OpenRTB 2.6 §3.2.14" },
      { id := "Core-App-005", severity := .error,
        message := "app.storeurl must be present and be a non-empty string",
        path := some "BidRequest.app.storeurl", specRef := some "OpenRTB 2.6 §3.2.14" },
      { id := "Core-App-006", severity := .error,
        message := "app.publisher must be present",
        path := some "BidRequest.app.publisher", specRef := some "OpenRTB 2.6 §3.2.14" },
      { id := "EQ-App-017", severity := .warning,
        message := "app.name must be present and be a non-empty string",
        path := some "BidRequest.app.name" },
      { id := "Core-Site-003", severity := .error,
        message := "site.domain must be present and be a non-empty string",
        path := some "BidRequest.site.domain", specRef := some "OpenRTB 2.6 §3.2.13" },
      { id := "Core-Site-004", severity := .error,
        message := "site.publisher must be present",
        path := some "BidRequest.site.publisher", specRef := some "OpenRTB 2.6 §3.2.13" }],
    request := cexAppAndSite, error := none }

/-- A minimal video request whose device.devicetype is the given code. -/
def ctvProbe (dt : Rat) : JVal := .objOf [("id", .str "r1"),
  ("imp", .arrOf [.objOf [("id", .str "1"), ("video", .objOf [])]]),
  ("device", .objOf [("devicetype", .num dt)])]

/-- The Scenario A payload of the spec: a banner impression, a site, no
device object. -/
def scenarioAInput : JVal := .objOf [("id", .str "r1"),
  ("imp", .arrOf [.objOf [("id", .str "1"),
    ("banner", .objOf [("w", .num 300), ("h", .num 250)])]]),
  ("site", .objOf [("id", .str "s1"), ("domain", .str "x.com"),
    ("publisher", .objOf [("id", .str "p1")])])]

/-- The analysis result for scenarioAInput under default options. -/
def scenarioAResult : AnalysisResult :=
  { summary := { requestType := "Banner", mediaFormats := ["banner"],
                 impressions := 1, platform := "Site", deviceType := "Unknown",
                 geo := .str "N/A" },
    issues := [
      { id := "Core-BR-004", severity := .error,
        message := "BidRequest.at (auction type) must be present and be an integer",
        path := some "BidRequest.at", specRef := some "OpenRTB 2.6 §3.2.1" },
      { id := "Core-BR-009", severity := .warning,
        message := "tmax (timeout) should be present and greater than 0",
        path := some "BidRequest.tmax", specRef := some "OpenRTB 2.6 §3.2.1" },
      { id := "EQ-BR-002", severity := .error,
        message := "BidRequest must contain a device object",
        path := some "BidRequest.device" },
      { id := "EQ-BR-004", severity := .error,
        message := "BidRequest must contain a source object",
        path := some "BidRequest.source" },
      { id := "EQ-BR-005", severity := .error,
        message := "BidRequest must contain a user object",
        path := some "BidRequest.user" }],
    request := scenarioAInput, error := none }

/-- The message of the country/datacenter consistency warning. -/
def countryMismatchMsg : String :=
  "Country continent mismatch with datacenter continent"

/-- The issue the validateCountryDatacenterMatch helper appends. -/
def eqDevice024Issue : Issue :=
  { id := "EQ-Device-024", severity := .warning, message := countryMismatchMsg,
    path := some "BidRequest.device.geo.country" }

/-- A request whose device.geo.country (USA, Americas) disagrees with the
continent of datacenter 3 (Equinix, Europe). -/
def dcProbeInput : JVal := .objOf [("id", .str "w"), ("imp", .arrOf []),
  ("device", .objOf [("geo", .objOf [("country", .str "USA")])]),
  ("ext", .objOf [("auctionDatacenterId", .num 3)])]

/-- The analysis result for dcProbeInput under default options: fourteen
rule-generated issues followed by the cross-field warning. -/
def dcProbeResult : AnalysisResult :=
  { summary := { requestType := "Unknown", mediaFormats := [], impressions := 0,
                 platform := "Unknown", deviceType := "Unknown", geo := .str "USA" },
    issues := [
      { id := "Core-BR-003", severity := .error,
        message := "BidRequest.imp must be a non-empty array",
        path := some "BidRequest.imp", specRef := some "OpenRTB 2.6 §3.2.1" },
      { id := "Core-BR-004", severity := .error,
        message := "BidRequest.at (auction type) must be present and be an integer",
        path := some "BidRequest.at", specRef := some "OpenRTB 2.6 §3.2.1" },
      { id := "Core-BR-005", severity := .error,
        message := "Exactly one of BidRequest.app or BidRequest.site must be present",
        path := none, specRef := some "OpenRTB 2.6 §3.2.1" },
      { id := "Core-BR-009", severity := .warning,
        message := "tmax (timeout) should be present and greater than 0",
        path := some "BidRequest.tmax", specRef := some "OpenRTB 2.6 §3.2.1" },
      { id := "EQ-BR-004", severity := .error,
        message := "BidRequest must contain a source object",
        path := some "BidRequest.source" },
      { id := "EQ-BR-005", severity := .error,
        message := "BidRequest must contain a user object",
        path := some "BidRequest.user" },
      { id := "Core-Device-004", severity := .error,
        message := "device.ua must be present and be a non-empty string",
        path := some "BidRequest.device.ua", specRef := some "OpenRTB 2.6 §3.2.18" },
      { id := "Core-Device-005", severity := .error,
        message := "device.ip must be present and be a valid IP address",
        path := some "BidRequest.device.ip", specRef := some "OpenRTB 2.6 §3.2.18" },
      { id := "Core-Device-006", severity := .error,
        message := "device.devicetype must be present and be an integer",
        path := some "BidRequest.device.devicetype", specRef := some "OpenRTB 2.6 §3.2.18" },
      { id := "EQ-Device-022", severity := .error,
        message := "device.make must be present and be a non-empty string",
        path := some "BidRequest.device.make" },
      { id := "EQ-Device-023", severity := .error,
        message := "device.model must be present and be a non-empty string",
        path := some "BidRequest.device.model" },
      { id := "EQ-Device-025", severity := .error,
        message := "device.os must be present and be a non-empty string",
        path := some "BidRequest.device.os" },
      { id := "EQ-Device-031", severity := .warning,
        message := "device.connectiontype must be present",
        path := some "BidRequest.device.connectiontype" },
      { id := "EQ-Device-035", severity := .info,
        message := "device.language should be present",
        path := some "BidRequest.device.language" },
      eqDevice024Issue],
    request := dcProbeInput, error := none }

/- ------------------------------------------------------------------ -/
/-  Engine lemmas                                                      -/
/- ------------------------------------------------------------------ -/

/-- The only rule of the whole catalogue whose description is the
country/datacenter warning message is EQ-Device-024 (by computation on the
concrete catalogue; the parse function only occurs inside validate
closures, so the filter reduces for an arbitrary one). -/
theorem allRules_countryMismatch_filter (jp : StrParse) :
    (allRules jp).filter (fun r => r.description == countryMismatchMsg) =
      [eqDevice024] := rfl

/-- Any issue a single rule evaluation produces carries that rule's
description as its message and witnesses a validate that returned false. -/
theorem runRule_mem {r : Rule} {c : Context} {l : List Issue} {i : Issue}
    (h : runRule r c = .ok l) (hi : i ∈ l) :
    i.message = r.description ∧ r.validate c = .ok false := by
  unfold runRule at h
  have hchk : checkRule r c = .ok l →
      i.message = r.description ∧ r.validate c = .ok false := by
    intro hck
    unfold checkRule at hck
    cases hv : r.validate c with
    | error e => simp [hv] at hck
    | ok valid =>
      simp only [hv] at hck
      injection hck with hck
      subst hck
      cases valid with
      | true => simp at hi
      | false =>
        simp at hi
        subst hi
        exact ⟨rfl, rfl⟩
  cases ha : r.applies with
  | none => simp only [ha] at h; exact hchk h
  | some a =>
    simp only [ha] at h
    by_cases hac : a c
    · rw [if_pos hac] at h; exact hchk h
    · rw [if_neg hac] at h
      injection h with h
      subst h
      cases hi

/-- Any issue of a successful rule pass comes from some rule of the list
whose validate returned false in that context. -/
theorem runRules_mem {rs : List Rule} {c : Context} {l : List Issue} {i : Issue}
    (h : runRules rs c = .ok l) (hi : i ∈ l) :
    ∃ ru, ru ∈ rs ∧ i.message = ru.description ∧ ru.validate c = .ok false := by
  induction rs generalizing l with
  | nil =>
    unfold runRules at h
    injection h with h
    subst h
    cases hi
  | cons r rest ih =>
    unfold runRules at h
    cases hr : runRule r c with
    | error e => simp [hr] at h
    | ok here =>
      simp only [hr] at h
      cases ht : runRules rest c with
      | error e => simp [ht] at h
      | ok tail =>
        simp only [ht] at h
        injection h with h
        subst h
        rcases List.mem_append.mp hi with hh | hh
        · obtain ⟨hm, hv⟩ := runRule_mem hr hh
          exact ⟨r, List.mem_cons_self r rest, hm, hv⟩
        · obtain ⟨ru, hru, hm, hv⟩ := ih ht hh
          exact ⟨ru, List.mem_cons_of_mem r hru, hm, hv⟩

/-- A summary produced by the Summary Deriver relates its requestType to
its own mediaFormats list by the capitalisation map. -/
theorem deriveSummary_requestType {jp : StrParse} {root : JVal} {ctx : Context}
    {s : AnalysisSummary} (h : deriveSummary jp root ctx = .ok s) :
    s.requestType = requestTypeOf s.mediaFormats := by
  unfold deriveSummary at h
  cases hm : mediaFormatsOf jp root ctx.inventory with
  | error e => simp [hm] at h
  | ok mf =>
    simp only [hm] at h
    injection h with h
    subst h
    rfl

/-- A summary produced by the Summary Deriver carries the platform given
by the app-first derivation from the root. -/
theorem deriveSummary_platform {jp : StrParse} {root : JVal} {ctx : Context}
    {s : AnalysisSummary} (h : deriveSummary jp root ctx = .ok s) :
    s.platform = platformOf root := by
  unfold deriveSummary at h
  cases hm : mediaFormatsOf jp root ctx.inventory with
  | error e => simp [hm] at h
  | ok mf =>
    simp only [hm] at h
    injection h with h
    subst h
    rfl

/- ------------------------------------------------------------------ -/
/-  Claim theorems                                                     -/
/- ------------------------------------------------------------------ -/

/-- Claim C1: the claim says analyse terminates normally for every string
input and every options value.  The code violates this: when forceCTV is
set and the parsed text contains no bid-request object (here the text
null, parsing to the JSON null value), the root is null, EQ-CTV-054
applies (its applies checks only isCTV) and its validate reads root.app,
a TypeError that escapes analyse.  This theorem evaluates the engine at
that failing input: the run ends in the error case and nothing is
cached. -/
theorem C1_forceCTV_null_root_exception :
    analyse (jpOf .null) "null" { forceCTV := some true } [] = (.error (), []) := rfl

/-- Claim C2: the claim says every applicable rule is evaluated and every
failing applicable rule contributes an issue.  The code violates this even
under default options: with device.ip equal to the number 1 (truthy, so
EQ-Device-030 applies), isTruncatedIP calls the string method endsWith on
a number and throws, aborting the pass; EQ-Device-031, which would have
contributed its connectiontype warning (second conjunct), is never
evaluated and no issue list is produced at all (first conjunct). -/
theorem C2_throwing_rule_suppresses_rest :
    analyse (jpOf cexDeviceIpNum) "req" {} [] = (.error (), []) ∧
    runRule eqDevice031 (buildContext (findBidRequest cexDeviceIpNum) {}) =
      .ok [mkIssue eqDevice031] := ⟨rfl, rfl⟩

/-- Claim C3: when the parse function fails with diagnostic m, analyse
returns (and caches) the parse-failure result: error is the non-empty
string Invalid JSON: m containing the diagnostic, issues is exactly one
Error-severity issue with that message, the summary is the
all-Unknown/zero default with geo N/A, and request is undefined; no
context is built and no rules run (the result is produced before the rule
pass). -/
theorem C3_parse_failure_contract (jp : StrParse) (t m : String)
    (o : AnalyseOptions) (h : jp t = .error m) :
    analyse jp t o [] = (.ok (parseFailureResult m), [(t, parseFailureResult m)]) ∧
    (parseFailureResult m).error = some ("Invalid JSON: " ++ m) ∧
    ("Invalid JSON: " ++ m) ≠ "" ∧
    (parseFailureResult m).issues =
      [{ id := "json-parse", severity := .error, message := "Invalid JSON: " ++ m }] ∧
    (parseFailureResult m).summary.requestType = "Unknown" ∧
    (parseFailureResult m).summary.mediaFormats = [] ∧
    (parseFailureResult m).summary.impressions = 0 ∧
    (parseFailureResult m).summary.platform = "Unknown" ∧
    (parseFailureResult m).summary.deviceType = "Unknown" ∧
    (parseFailureResult m).summary.geo = .str "N/A" ∧
    (parseFailureResult m).request = .undefined := by
  refine ⟨?_, rfl, ?_, rfl, rfl, rfl, rfl, rfl, rfl, rfl, rfl⟩
  · unfold analyse Cache.findC analyseCore
    simp only [h]
  · intro heq
    have hl : ("Invalid JSON: " ++ m).length = ("" : String).length :=
      congrArg String.length heq
    rw [String.length_append] at hl
    have h1 : ("Invalid JSON: " : String).length = 14 := rfl
    have h2 : ("" : String).length = 0 := rfl
    omega

/-- Witness for C3 at a concrete failing parse. -/
theorem C3_parse_failure_contract_witness :
    analyse (fun _ => .error "Unexpected token") "not json" {} [] =
      (.ok (parseFailureResult "Unexpected token"),
       [("not json", parseFailureResult "Unexpected token")]) :=
  (C3_parse_failure_contract (fun _ => .error "Unexpected token")
    "not json" "Unexpected token" {} rfl).1

/-- Claim C4: when the text parses but no descendant object has a string
id and an array imp (the located root is null), analyse under default
options returns the result whose issues list is exactly the single
missing-request Error and whose top-level error field is unset: every
other rule either does not apply or passes, and no rule throws on the
absent root. -/
theorem C4_missing_root_single_issue (jp : StrParse) (t : String) (v : JVal)
    (h1 : jp t = .ok v) (h2 : findBidRequest v = .null) :
    analyse jp t {} [] = (.ok missingRootResult, [(t, missingRootResult)]) := by
  unfold analyse Cache.findC analyseCore
  simp only [h1, h2]
  rfl

/-- Witness for C4: the text 42 parses to a bare number, in which no bid
request is found. -/
theorem C4_missing_root_single_issue_witness :
    analyse (jpOf (.num 42)) "42" {} [] =
      (.ok missingRootResult, [("42", missingRootResult)]) :=
  C4_missing_root_single_issue (jpOf (.num 42)) "42" (.num 42) rfl rfl

/-- Claim C5 counterexample: in this request exactly one media format is
present (the inventory is the singleton audio), yet requestType is Mixed,
not Audio, because the derived mediaFormats list gains the extra AAC tag
for an audio impression whose mimes include audio/aac. -/
theorem C5_counterexample :
    (buildContext (findBidRequest cexAudioAAC) {}).inventory = ["audio"] ∧
    analyseCore (jpOf cexAudioAAC) "req" {} = .ok cexAudioAACResult ∧
    cexAudioAACResult.summary.requestType = "Mixed" ∧
    cexAudioAACResult.summary.mediaFormats = ["audio", "AAC"] :=
  ⟨rfl, rfl, rfl, rfl⟩

/-- Claim C5 as amended: summary.requestType is determined by the derived
summary.mediaFormats list (the inventory materialised in detection order,
possibly extended with AAC after audio and Video-Ad after native): exactly
one entry yields that entry's capitalized name when it is banner, video,
audio or native and Unknown otherwise; more than one entry yields Mixed;
none yields Unknown. -/
theorem C5_requestType_from_mediaFormats (jp : StrParse) (t : String)
    (o : AnalyseOptions) (r : AnalysisResult)
    (h : analyseCore jp t o = .ok r) :
    r.summary.requestType = requestTypeOf r.summary.mediaFormats := by
  unfold analyseCore at h
  cases hp : jp t with
  | error m =>
    simp only [hp] at h
    injection h with h
    subst h
    rfl
  | ok v =>
    simp only [hp] at h
    unfold analyseRoot at h
    cases hrr : runRules (allRules jp) (buildContext (findBidRequest v) o) with
    | error e => simp [hrr] at h
    | ok rulePart =>
      simp only [hrr] at h
      cases hcf : crossFieldIssues (findBidRequest v) with
      | error e => simp [hcf] at h
      | ok crossPart =>
        simp only [hcf] at h
        cases hds : deriveSummary jp (findBidRequest v) (buildContext (findBidRequest v) o) with
        | error e => simp [hds] at h
        | ok s =>
          simp only [hds] at h
          injection h with h
          subst h
          exact deriveSummary_requestType hds

/-- Witness for C5's amended theorem at the AAC payload. -/
theorem C5_requestType_from_mediaFormats_witness :
    analyseCore (jpOf cexAudioAAC) "req" {} = .ok cexAudioAACResult ∧
    cexAudioAACResult.summary.requestType =
      requestTypeOf cexAudioAACResult.summary.mediaFormats :=
  ⟨rfl, C5_requestType_from_mediaFormats (jpOf cexAudioAAC) "req" {}
    cexAudioAACResult rfl⟩

/-- Claim C6 counterexample: with both app and site present the summary
reports App, not Unknown as the claim states, because the derivation takes
the app branch without checking for site; the app/site exclusivity rules
still fire independently (Core-BR-005 and Core-BR-006 are in the issue
list of the full result). -/
theorem C6_counterexample :
    ((findBidRequest cexAppAndSite).getD "app").truthy = true ∧
    ((findBidRequest cexAppAndSite).getD "site").truthy = true ∧
    analyseCore (jpOf cexAppAndSite) "req" {} = .ok cexAppAndSiteResult ∧
    cexAppAndSiteResult.summary.platform = "App" ∧
    (∃ i ∈ cexAppAndSiteResult.issues, i.id = "Core-BR-006" ∧ i.severity = .error) :=
  ⟨rfl, rfl, rfl, rfl, by decide⟩

/-- Claim C6 as amended: summary.platform is App whenever an app object is
present (truthy), even if a site object is also present; Site when a site
object is present and no app; Unknown when neither is present. -/
theorem C6_platform_derivation (jp : StrParse) (t : String) (o : AnalyseOptions)
    (v : JVal) (r : AnalysisResult) (hp : jp t = .ok v)
    (h : analyseCore jp t o = .ok r) :
    r.summary.platform = platformOf (findBidRequest v) := by
  unfold analyseCore at h
  simp only [hp] at h
  unfold analyseRoot at h
  cases hrr : runRules (allRules jp) (buildContext (findBidRequest v) o) with
  | error e => simp [hrr] at h
  | ok rulePart =>
    simp only [hrr] at h
    cases hcf : crossFieldIssues (findBidRequest v) with
    | error e => simp [hcf] at h
    | ok crossPart =>
      simp only [hcf] at h
      cases hds : deriveSummary jp (findBidRequest v) (buildContext (findBidRequest v) o) with
      | error e => simp [hds] at h
      | ok s =>
        simp only [hds] at h
        injection h with h
        subst h
        exact deriveSummary_platform hds

/-- Witness for C6's amended theorem at the app-and-site payload. -/
theorem C6_platform_derivation_witness :
    analyseCore (jpOf cexAppAndSite) "req" {} = .ok cexAppAndSiteResult ∧
    cexAppAndSiteResult.summary.platform = platformOf (findBidRequest cexAppAndSite) :=
  ⟨rfl, C6_platform_derivation (jpOf cexAppAndSite) "req" {} cexAppAndSite
    cexAppAndSiteResult rfl rfl⟩

/-- Claim C7: the claim says auto-detected isCTV holds exactly for the
device-type codes the taxonomy identifies as Connected TV (3) and the
set-top class (7), and is false for Tablet.  The code checks codes 3 and
5 instead: for devicetype 7 (Set-top Box in its own DEVICE_TYPE table)
isCTV stays false, and for devicetype 5 (Tablet) it becomes true.  This
theorem evaluates the context builder at both inputs alongside the
taxonomy entries. -/
theorem C7_ctv_autodetect_disagrees_with_taxonomy :
    (buildContext (findBidRequest (ctvProbe 7)) {}).isCTV = false ∧
    (buildContext (findBidRequest (ctvProbe 5)) {}).isCTV = true ∧
    (buildContext (findBidRequest (ctvProbe 3)) {}).isCTV = true ∧
    (buildContext (findBidRequest (ctvProbe 2)) {}).isCTV = false ∧
    DEVICE_TYPE 3 = some "Connected TV" ∧
    DEVICE_TYPE 5 = some "Tablet" ∧
    DEVICE_TYPE 7 = some "Set-top Box" :=
  ⟨rfl, rfl, rfl, rfl, rfl, rfl, rfl⟩

/-- Claim C8: the memoiser is keyed by the exact input text alone: once a
call with options o1 on text t has returned a result normally (also when
that result is the parse-failure result), a subsequent call on the same
text with any options o2 returns the identical stored result and leaves
the cache unchanged: the second call's options cannot affect it. -/
theorem C8_memo_keyed_by_text_only (jp : StrParse) (t : String)
    (o1 o2 : AnalyseOptions) (c c' : Cache) (r : AnalysisResult)
    (h : analyse jp t o1 c = (.ok r, c')) :
    analyse jp t o2 c' = (.ok r, c') := by
  unfold analyse at h ⊢
  cases hf : Cache.findC c t with
  | some r0 =>
    simp only [hf] at h
    rw [Prod.mk.injEq] at h
    obtain ⟨h1, h2⟩ := h
    injection h1 with h1
    subst h1
    subst h2
    simp only [hf]
  | none =>
    simp only [hf] at h
    cases hc : analyseCore jp t o1 with
    | error e => simp [hc] at h
    | ok r1 =>
      simp only [hc] at h
      rw [Prod.mk.injEq] at h
      obtain ⟨h1, h2⟩ := h
      injection h1 with h1
      subst h1
      subst h2
      simp [Cache.findC]

/-- Witness for C8: the second call forces CTV, which on this rootless
text would throw if re-evaluated, yet returns the cached first result. -/
theorem C8_memo_keyed_by_text_only_witness :
    analyse (jpOf (.num 42)) "42" {} [] =
      (.ok missingRootResult, [("42", missingRootResult)]) ∧
    analyse (jpOf (.num 42)) "42" { forceCTV := some true }
      [("42", missingRootResult)] =
      (.ok missingRootResult, [("42", missingRootResult)]) :=
  ⟨rfl, C8_memo_keyed_by_text_only (jpOf (.num 42)) "42" {}
    { forceCTV := some true } [] [("42", missingRootResult)] missingRootResult rfl⟩

/-- Claim C9 counterexample: on the Scenario A payload the platform and
mediaFormats are as the claim states, but the claim's Warning-severity
issue for the missing device does not exist: every Warning in the result
is the tmax warning (Core-BR-009), and the only issue whose path is the
device is the Error-severity EQ-BR-002. -/
theorem C9_counterexample :
    analyseCore (jpOf scenarioAInput) "req" {} = .ok scenarioAResult ∧
    scenarioAResult.summary.platform = "Site" ∧
    scenarioAResult.summary.mediaFormats = ["banner"] ∧
    (∀ i ∈ scenarioAResult.issues, i.severity = .warning →
      i.id = "Core-BR-009" ∧ i.path = some "BidRequest.tmax") ∧
    (∀ i ∈ scenarioAResult.issues, i.path = some "BidRequest.device" →
      i.severity = .error) :=
  ⟨rfl, rfl, rfl, by decide, by decide⟩

/-- Claim C9 as amended: for the Scenario A input with default options the
result has summary.platform Site, summary.mediaFormats banner, and at
least one Error-severity issue for the missing device (EQ-BR-002). -/
theorem C9_scenarioA_missing_device_error :
    analyseCore (jpOf scenarioAInput) "req" {} = .ok scenarioAResult ∧
    scenarioAResult.summary.platform = "Site" ∧
    scenarioAResult.summary.mediaFormats = ["banner"] ∧
    (∃ i ∈ scenarioAResult.issues, i.id = "EQ-BR-002" ∧ i.severity = .error ∧
      i.path = some "BidRequest.device" ∧
      i.message = "BidRequest must contain a device object") :=
  ⟨rfl, rfl, rfl, by decide⟩

/-- Claim C10: the catalogue rule EQ-Device-024 never itself produces an
issue (its validate returns true in every context), and in every
successful analysis the issue list decomposes as the rule-pass issues
followed by the cross-field issues, where no rule-pass issue carries the
country/datacenter mismatch message: whenever that Warning appears it was
appended by the validateCountryDatacenterMatch helper after the entire
rule pass, hence after every rule-generated issue. -/
theorem C10_country_warning_after_rule_issues :
    (∀ c : Context, eqDevice024.validate c = .ok true) ∧
    (∀ (jp : StrParse) (t : String) (o : AnalyseOptions) (v : JVal)
      (r : AnalysisResult),
      jp t = .ok v → analyseCore jp t o = .ok r →
      ∃ rulePart crossPart,
        runRules (allRules jp) (buildContext (findBidRequest v) o) = .ok rulePart ∧
        r.issues = rulePart ++ crossPart ∧
        ∀ i ∈ rulePart, i.message ≠ countryMismatchMsg) := by
  constructor
  · intro c; rfl
  · intro jp t o v r hp h
    unfold analyseCore at h
    simp only [hp] at h
    unfold analyseRoot at h
    cases hrr : runRules (allRules jp) (buildContext (findBidRequest v) o) with
    | error e => simp [hrr] at h
    | ok rulePart =>
      simp only [hrr] at h
      cases hcf : crossFieldIssues (findBidRequest v) with
      | error e => simp [hcf] at h
      | ok crossPart =>
        simp only [hcf] at h
        cases hds : deriveSummary jp (findBidRequest v) (buildContext (findBidRequest v) o) with
        | error e => simp [hds] at h
        | ok s =>
          simp only [hds] at h
          injection h with h
          subst h
          refine ⟨rulePart, crossPart, rfl, rfl, ?_⟩
          intro i hi hmsg
          obtain ⟨ru, hru, hm, hv⟩ := runRules_mem hrr hi
          have hdesc : ru.description = countryMismatchMsg := by
            rw [← hm]; exact hmsg
          have hmem : ru ∈ (allRules jp).filter
              (fun r => r.description == countryMismatchMsg) :=
            List.mem_filter.mpr ⟨hru, by simp [hdesc]⟩
          rw [allRules_countryMismatch_filter] at hmem
          have heq : ru = eqDevice024 := by simpa using hmem
          rw [heq] at hv
          simp [eqDevice024] at hv

/-- Witness for C10 at a payload whose country (USA) mismatches its
datacenter continent: the mismatch warning is present and sits in the
cross-field part, after all fourteen rule-generated issues. -/
theorem C10_country_warning_after_rule_issues_witness :
    (∀ c : Context, eqDevice024.validate c = .ok true) ∧
    (∃ rulePart crossPart,
      runRules (allRules (jpOf dcProbeInput))
        (buildContext (findBidRequest dcProbeInput) {}) = .ok rulePart ∧
      dcProbeResult.issues = rulePart ++ crossPart ∧
      ∀ i ∈ rulePart, i.message ≠ countryMismatchMsg) ∧
    analyseCore (jpOf dcProbeInput) "req" {} = .ok dcProbeResult ∧
    crossFieldIssues (findBidRequest dcProbeInput) = .ok [eqDevice024Issue] :=
  ⟨C10_country_warning_after_rule_issues.1,
   C10_country_warning_after_rule_issues.2 (jpOf dcProbeInput) "req" {}
     dcProbeInput dcProbeResult rfl rfl,
   rfl, rfl⟩
